import Mathlib

/-!
# Verification of `data_spaces`

A shallow embedding, in Lean 4, of the two programs of the `data_spaces`
repository:

* `generate_data.py` — the dataset synthesizer (traffic CSV, bus GeoJSON,
  planning text file, zone mapping table);
* `mobility-semantic/generate_ttl.py` — the semantic mapper turning cleaned
  tables into RDF triples.

Modelling conventions:

* CSV cells as read by `pandas.read_csv` are `Option String`: `none` models a
  missing value (`NaN`), `some s` the cell text.  Python float arithmetic is
  modelled by exact rational arithmetic (`ℚ`); `round` is modelled by
  round-half-to-even on rationals, matching CPython's `round` on reals.
* The Python `random` module is deterministic; the generators are therefore
  embedded as pure functions of the values drawn.  Where a claim needs the
  documented contract of a `random` primitive (`sample` returns distinct
  indices from the population, `uniform lo hi ∈ [lo, hi]`, ...) that contract
  appears as a hypothesis.  A concrete linear-congruential stand-in for the
  module is also provided so the seeded end-to-end runs can be stated.
* `float(x)` on a string is modelled by a decimal-literal grammar (optional
  sign, digits with at most one dot, optional exponent), which covers every
  value the pipelines produce; IEEE specials (`inf`/`nan` spellings) are not
  representable in `ℚ` and are outside the model.
* rdflib's `Graph.add` accumulates triples; a graph is modelled as the list of
  triples added, and a row's contribution to a graph as the list of triples the
  row's loop body adds.
-/

namespace DataSpaces

/-! ## Shared numeric helpers (`generate_data.py`, lines 62-63, and Python builtins) -/

/-- Models `clamp(x, lo, hi) = max(lo, min(hi, x))` (`generate_data.py`, line 62). -/
def clamp (x lo hi : ℚ) : ℚ := max lo (min hi x)

/-- Python `int(...)` on a float: truncation toward zero. -/
def pyTrunc (q : ℚ) : ℤ := if 0 ≤ q then ⌊q⌋ else ⌈q⌉

/-- Round half to even to the nearest integer, the rounding used by Python's
`round` (modelled on exact rationals). -/
def rhe (q : ℚ) : ℤ :=
  if Int.fract q < 1/2 then ⌊q⌋
  else if 1/2 < Int.fract q then ⌊q⌋ + 1
  else if Even ⌊q⌋ then ⌊q⌋ else ⌊q⌋ + 1

/-- Python `round(q, k)`: round half to even at `k` decimal digits. -/
def roundTo (k : ℕ) (q : ℚ) : ℚ := (rhe (q * 10 ^ k) : ℚ) / 10 ^ k

/-! ## String helpers modelling the Python string builtins used by the repo -/

/-- Models `str.replace(a, b)` for one-character patterns (the only patterns the
repository uses). -/
def chReplace (s : String) (a b : Char) : String :=
  String.mk (s.data.map fun c => if c == a then b else c)

/-- Models `str.strip()` (ASCII whitespace suffices for the repository's data). -/
def trimChars (cs : List Char) : List Char :=
  ((cs.dropWhile Char.isWhitespace).reverse.dropWhile Char.isWhitespace).reverse

/-- ASCII `str.lower()` on one character. -/
def asciiLower (c : Char) : Char :=
  if 65 ≤ c.toNat ∧ c.toNat ≤ 90 then Char.ofNat (c.toNat + 32) else c

/-- Models `str(x).lower().strip()` as used by `safe_bool` (`generate_ttl.py`, line 38). -/
def pyLowerStrip (s : String) : String :=
  String.mk (trimChars (s.data.map asciiLower))

/-- Value of a decimal digit character. -/
def digitVal (c : Char) : ℕ := c.toNat - 48

/-- Natural number denoted by a digit string (most significant first). -/
def natOfDigits (cs : List Char) : ℕ := cs.foldl (fun a c => 10 * a + digitVal c) 0

/-- All characters are decimal digits. -/
def allDigits (cs : List Char) : Bool := cs.all Char.isDigit

/-- Unsigned mantissa of a Python float literal: digits with at most one dot,
at least one digit overall (`"12"`, `"12.5"`, `"12."`, `".5"`). -/
def parseUnsignedMantissa (cs : List Char) : Option ℚ :=
  let ip := cs.takeWhile Char.isDigit
  let rest := cs.dropWhile Char.isDigit
  match rest with
  | [] => if ip.isEmpty then none else some (natOfDigits ip)
  | '.' :: fp =>
    if allDigits fp && (!ip.isEmpty || !fp.isEmpty) then
      some ((natOfDigits ip : ℚ) + (natOfDigits fp : ℚ) / 10 ^ fp.length)
    else none
  | _ => none

/-- Exponent part of a Python float literal (after `e`/`E`). -/
def parseExpPart (cs : List Char) : Option ℤ :=
  match cs with
  | '+' :: ds => if !ds.isEmpty && allDigits ds then some ((natOfDigits ds : ℤ)) else none
  | '-' :: ds => if !ds.isEmpty && allDigits ds then some (-(natOfDigits ds : ℤ)) else none
  | ds => if !ds.isEmpty && allDigits ds then some ((natOfDigits ds : ℤ)) else none

/-- Mantissa with optional exponent. -/
def parseMantissaExp (cs : List Char) : Option ℚ :=
  match cs.findIdx? (fun c => c == 'e' || c == 'E') with
  | none => parseUnsignedMantissa cs
  | some i =>
    match parseUnsignedMantissa (cs.take i), parseExpPart (cs.drop (i + 1)) with
    | some m, some e => some (m * (10 : ℚ) ^ e)
    | _, _ => none

/-- Signed float literal body. -/
def pyFloatOfChars (cs : List Char) : Option ℚ :=
  match cs with
  | '+' :: rest => parseMantissaExp rest
  | '-' :: rest => (parseMantissaExp rest).map Neg.neg
  | rest => parseMantissaExp rest

/-- Python `float(s)` on a string: strip whitespace, then parse a decimal
literal; `none` models the `ValueError` path. -/
def pyFloat (s : String) : Option ℚ := pyFloatOfChars (trimChars s.data)

/-- Python f-string interpolation of a CSV cell: a missing value (pandas
`NaN`) prints as `"nan"`. -/
def pyStr (x : Option String) : String := x.getD "nan"

/-! ## RDF model (`generate_ttl.py`) -/

/-- An RDF literal value as produced by `rdflib.Literal` at the mapper's call
sites: a plain or language-tagged string, or a typed rational / integer /
boolean. -/
inductive LV
  | str (v : String)
  | lstr (v : String) (lang : String)
  | flo (v : ℚ)
  | intv (v : ℤ)
  | boolv (v : Bool)
deriving DecidableEq

/-- An RDF node: a URI or a literal with an optional datatype URI. -/
inductive Node
  | uri (u : String)
  | lit (v : LV) (dt : Option String)
deriving DecidableEq

/-- An RDF triple. -/
abbrev Triple := Node × Node × Node

/-- The `mob:` ontology namespace (`generate_ttl.py`, line 9). -/
def MOB (s : String) : Node := Node.uri ("https://purl.org/mobility/ontology#" ++ s)

/-- The `ex:` data namespace string (`generate_ttl.py`, line 10). -/
def EXB : String := "https://example.org/mobility/data/"

/-- The QUDT unit namespace (`generate_ttl.py`, line 13). -/
def UNITn (s : String) : Node := Node.uri ("http://qudt.org/vocab/unit/" ++ s)

/-- The GeoSPARQL namespace (`generate_ttl.py`, line 12). -/
def GEOn (s : String) : Node := Node.uri ("http://www.opengis.net/ont/geosparql#" ++ s)

/-- Models `rdf:type`. -/
def RDF_type : Node := Node.uri "http://www.w3.org/1999/02/22-rdf-syntax-ns#type"

/-- Models `rdfs:label`. -/
def RDFS_label : Node := Node.uri "http://www.w3.org/2000/01/rdf-schema#label"

/-- An XSD datatype URI. -/
def XSDdt (s : String) : Option String := some ("http://www.w3.org/2001/XMLSchema#" ++ s)

/-- A GeoSPARQL datatype URI (for `geo:wktLiteral`). -/
def GEOdt (s : String) : Option String := some ("http://www.opengis.net/ont/geosparql#" ++ s)

/-- Hexadecimal digit character (uppercase, as `urllib.parse.quote` emits). -/
def hexDigitChar (n : ℕ) : Char := if n < 10 then Char.ofNat (48 + n) else Char.ofNat (55 + n)

/-- Percent-encoding of one byte. -/
def pctByte (b : ℕ) : List Char := ['%', hexDigitChar (b / 16), hexDigitChar (b % 16)]

/-- UTF-8 bytes of a code point. -/
def utf8Bytes (n : ℕ) : List ℕ :=
  if n < 128 then [n]
  else if n < 2048 then [192 + n / 64, 128 + n % 64]
  else if n < 65536 then [224 + n / 4096, 128 + (n / 64) % 64, 128 + n % 64]
  else [240 + n / 262144, 128 + (n / 4096) % 64, 128 + (n / 64) % 64, 128 + n % 64]

/-- Characters `urllib.parse.quote(·, safe="")` leaves unencoded: ASCII
letters, digits, and `_.-~`. -/
def quoteSafe (c : Char) : Bool := c.isAlphanum || c == '_' || c == '.' || c == '-' || c == '~'

/-- Models `urllib.parse.quote(s, safe="")` (`generate_ttl.py`, line 20). -/
def pyQuote (s : String) : String :=
  String.mk (s.data.flatMap fun c =>
    if quoteSafe c then [c] else (utf8Bytes c.toNat).flatMap pctByte)

/-- Models `to_uri` (`generate_ttl.py`, lines 16-21): `None` on a missing or empty
key, otherwise the slugified percent-encoded URI in the `ex:` namespace. -/
def to_uri (base : String) (value : Option String) : Option Node :=
  match value with
  | none => none
  | some v =>
    if v = "" then none
    else
      some (Node.uri (EXB ++ base ++ "/" ++
        pyQuote (chReplace (chReplace (chReplace v ' ' '_') ':' '-') '.' '-')))

/-- Models `safe_float` (`generate_ttl.py`, lines 23-27). -/
def safe_float (x : Option String) : Option ℚ :=
  match x with
  | none => none
  | some s => if s = "" then none else pyFloat s

/-- Models `safe_int` (`generate_ttl.py`, lines 29-33):
`int(float(x)) if pd.notna(x) and x != '' else None` guarded by
`except (ValueError, TypeError)`.  The handler does not catch
`OverflowError`: when `float(x)` overflows the IEEE double range to
infinity — the parsed magnitude is at least `2^1024`; the model approximates
the exact rounding boundary `2^1024 - 2^970` by `2^1024`, which differs only
on a sliver of astronomically large literals — `int(inf)` raises and the
exception escapes to the caller.  `Except.error ()` models that escaping
`OverflowError`; every caught or successful path is `Except.ok`: a missing,
blank or unparseable cell gives `Except.ok none`, a parseable in-range cell
the truncation of its value toward zero. -/
def safe_int (x : Option String) : Except Unit (Option ℤ) :=
  match x with
  | none => .ok none
  | some s =>
    if s = "" then .ok none
    else
      match pyFloat s with
      | none => .ok none
      | some q => if (2 : ℚ) ^ 1024 ≤ |q| then .error () else .ok (some (pyTrunc q))

/-- The value a `safe_int` call produces when no exception escapes (its
`Except.ok` payload).  The per-row contribution functions below are stated
against it; on a raising input the source emits nothing for the field (the
program aborts), which the total contribution model renders as an omitted
triple, while the escaping `OverflowError` itself is captured by the
`process_*_row_run` wrappers. -/
def safe_int_ok (x : Option String) : Option ℤ :=
  match safe_int x with
  | .ok v => v
  | .error _ => none

/-- Models `safe_bool` (`generate_ttl.py`, lines 35-39): `None` only on a missing
cell; otherwise membership of the lower-cased stripped text in
`("true", "1", "yes", "t")`. -/
def safe_bool (x : Option String) : Option Bool :=
  match x with
  | none => none
  | some s => some (["true", "1", "yes", "t"].contains (pyLowerStrip s))

/-- The triples a guarded `g.add` block contributes: none when the parsed
value is absent. -/
def optTriples {α : Type} (x : Option α) (f : α → List Triple) : List Triple :=
  match x with
  | some a => f a
  | none => []

/-- The guard `pd.notna(x) and x != ""` as a partial identity on cells. -/
def strPresent (x : Option String) : Option String :=
  match x with
  | some v => if v ≠ "" then some v else none
  | none => none

/-- A `g.add` block guarded by two parsed values (the latitude/longitude
pair). -/
def opt2Triples {α β : Type} (x : Option α) (y : Option β)
    (f : α → β → List Triple) : List Triple :=
  match x, y with
  | some a, some b => f a b
  | _, _ => []

/-- Display form of a rational in a WKT string (stand-in for CPython float
formatting; no claim depends on the rendered digits). -/
def ratRepr (q : ℚ) : String := toString q

/-! ## Mapper input rows (the six cleaned CSV tables) -/

/-- A row of `ZONE_MAPPING.csv`. -/
structure ZoneMappingRow where
  ZONE_ID : Option String
  AREA_CODE : Option String
  SERVICE_ZONE : Option String
deriving DecidableEq

/-- A row of `PLANNING_CLEAN.csv`. -/
structure PlanningCleanRow where
  LINE_ID : Option String
  ZONE_ID : Option String
  DAY_TYPE : Option String
  SCHEDULED_TIME : Option String
  FREQUENCY_MIN : Option String
  IS_PEAK_SCHEDULE : Option String
deriving DecidableEq

/-- A row of `TRAFFIC_CLEAN.csv`. -/
structure TrafficCleanRow where
  ZONE_ID : Option String
  TIMESTAMP : Option String
  AVERAGE_SPEED_KMH : Option String
  TRAFFIC_VOLUME : Option String
  OCCUPANCY_RATE : Option String
  CONGESTION_LEVEL : Option String
  IS_CONGESTED : Option String
deriving DecidableEq

/-- A row of `BUS_GPS_CLEAN.csv`. -/
structure BusGpsCleanRow where
  EVENT_TIME : Option String
  BUS_ID : Option String
  LINE_ID : Option String
  ZONE_ID : Option String
  LATITUDE : Option String
  LONGITUDE : Option String
  SPEED_KMH : Option String
  IS_DELAYED : Option String
  DELAY_MINUTES : Option String
  DELAY_CATEGORY : Option String
deriving DecidableEq

/-- A row of `BUS_PERFORMANCE_HOURLY.csv`. -/
structure BusPerfHourlyRow where
  LINE_ID : Option String
  ZONE_ID : Option String
  EVENT_DATE : Option String
  EVENT_HOUR : Option String
  AVG_DELAY_MINUTES : Option String
  MAX_DELAY_MINUTES : Option String
  AVG_SPEED_KMH : Option String
  DELAY_RATE_PCT : Option String
deriving DecidableEq

/-! ## The per-row mapping functions (`generate_ttl.py`, §§2-6) -/

/-- Loop body of `process_zone_mapping` (`generate_ttl.py`, lines 73-79): the
triples one row contributes. -/
def process_zone_mapping_row (row : ZoneMappingRow) : List Triple :=
  match to_uri "zone" row.ZONE_ID with
  | some zone_uri =>
    [(zone_uri, RDF_type, MOB "ServiceZone"),
     (zone_uri, MOB "hasAreaCode", Node.lit (.str (pyStr row.AREA_CODE)) none),
     (zone_uri, RDFS_label, Node.lit (.str (pyStr row.SERVICE_ZONE)) none)]
  | none => []

/-- Loop body of `process_planning_clean` (`generate_ttl.py`, lines 87-104). -/
def process_planning_row (row : PlanningCleanRow) : List Triple :=
  let schedule_id := pyStr row.LINE_ID ++ "_" ++ pyStr row.ZONE_ID ++ "_" ++
    pyStr row.DAY_TYPE ++ "_" ++ pyStr row.SCHEDULED_TIME
  match to_uri "schedule" (some schedule_id), to_uri "route" row.LINE_ID,
        to_uri "zone" row.ZONE_ID with
  | some schedule_uri, some route_uri, some zone_uri =>
    [(schedule_uri, RDF_type, MOB "Schedule"),
     (schedule_uri, MOB "belongsToRoute", route_uri),
     (schedule_uri, MOB "appliesToZone", zone_uri),
     (schedule_uri, MOB "dayType", Node.lit (.str (pyStr row.DAY_TYPE)) none),
     (schedule_uri, MOB "scheduledTime", Node.lit (.str (pyStr row.SCHEDULED_TIME)) (XSDdt "time"))]
    ++ optTriples (safe_int_ok row.FREQUENCY_MIN) (fun freq =>
        [(schedule_uri, MOB "frequencyMinutes", Node.lit (.intv freq) (XSDdt "integer"))])
    ++ optTriples (safe_bool row.IS_PEAK_SCHEDULE) (fun is_peak =>
        [(schedule_uri, MOB "isPeakSchedule", Node.lit (.boolv is_peak) (XSDdt "boolean"))])
  | _, _, _ => []

/-- Loop body of `process_traffic_clean` (`generate_ttl.py`, lines 112-136). -/
def process_traffic_row (row : TrafficCleanRow) : List Triple :=
  let obs_id := pyStr row.ZONE_ID ++ "_" ++ pyStr row.TIMESTAMP
  match to_uri "traffic_obs" (some obs_id), to_uri "zone" row.ZONE_ID with
  | some obs_uri, some zone_uri =>
    [(obs_uri, RDF_type, MOB "TrafficObservation"),
     (obs_uri, MOB "observedInZone", zone_uri),
     (obs_uri, MOB "observedAt", Node.lit (.str (pyStr row.TIMESTAMP)) (XSDdt "dateTime"))]
    ++ optTriples (safe_float row.AVERAGE_SPEED_KMH) (fun speed =>
        [(obs_uri, MOB "averageSpeed", Node.lit (.flo speed) (XSDdt "float")),
         (obs_uri, MOB "speedUnit", UNITn "KiloM-PER-HR")])
    ++ optTriples (safe_int_ok row.TRAFFIC_VOLUME) (fun vol =>
        [(obs_uri, MOB "trafficVolume", Node.lit (.intv vol) (XSDdt "integer"))])
    ++ optTriples (safe_float row.OCCUPANCY_RATE) (fun occ =>
        [(obs_uri, MOB "occupancyRate", Node.lit (.flo occ) (XSDdt "float"))])
    ++ optTriples (strPresent row.CONGESTION_LEVEL) (fun lvl =>
        [(obs_uri, MOB "congestionLevel", MOB lvl)])
    ++ optTriples (safe_bool row.IS_CONGESTED) (fun is_cong =>
        [(obs_uri, MOB "isCongested", Node.lit (.boolv is_cong) (XSDdt "boolean"))])
  | _, _ => []

/-- Loop body of `process_bus_gps_clean` (`generate_ttl.py`, lines 144-184).
The source applies `str.replace` to the raw `EVENT_TIME` cell, so a missing
`EVENT_TIME` raises an `AttributeError`; that path is `none`. -/
def process_bus_gps_row (row : BusGpsCleanRow) : Option (List Triple) :=
  match row.EVENT_TIME with
  | none => none
  | some et =>
    let event_time_iso := chReplace et ' ' 'T' ++ "Z"
    let trip_id := pyStr row.BUS_ID ++ "_" ++ event_time_iso
    some (
      match to_uri "trip" (some trip_id), to_uri "vehicle" row.BUS_ID,
            to_uri "route" row.LINE_ID, to_uri "zone" row.ZONE_ID with
      | some trip_uri, some vehicle_uri, some route_uri, some zone_uri =>
        [(trip_uri, RDF_type, MOB "Trip"),
         (trip_uri, MOB "hasVehicle", vehicle_uri),
         (trip_uri, MOB "operatesOnRoute", route_uri),
         (trip_uri, MOB "observedInZone", zone_uri),
         (trip_uri, MOB "recordedAt", Node.lit (.str event_time_iso) (XSDdt "dateTime")),
         (vehicle_uri, RDF_type, MOB "Vehicle"),
         (vehicle_uri, RDFS_label, Node.lit (.str (pyStr row.BUS_ID)) none)]
        ++ opt2Triples (safe_float row.LATITUDE) (safe_float row.LONGITUDE) (fun lat lon =>
            match to_uri "point" (some trip_id) with
            | some point_uri =>
              [(trip_uri, MOB "hasLocation", point_uri),
               (point_uri, RDF_type, GEOn "Point"),
               (point_uri, GEOn "asWKT",
                 Node.lit (.str ("POINT(" ++ ratRepr lon ++ " " ++ ratRepr lat ++ ")")) (GEOdt "wktLiteral"))]
            | none => [])
        ++ optTriples (safe_float row.SPEED_KMH) (fun speed =>
            [(trip_uri, MOB "instantaneousSpeed", Node.lit (.flo speed) (XSDdt "float")),
             (trip_uri, MOB "speedUnit", UNITn "KiloM-PER-HR")])
        ++ optTriples (safe_bool row.IS_DELAYED) (fun is_delayed =>
            [(trip_uri, MOB "isDelayed", Node.lit (.boolv is_delayed) (XSDdt "boolean"))])
        ++ optTriples (safe_float row.DELAY_MINUTES) (fun delay_min =>
            if 0 < delay_min then
              match to_uri "delay_event" (some trip_id) with
              | some event_uri =>
                [(trip_uri, MOB "hasDelayEvent", event_uri),
                 (event_uri, RDF_type, MOB "DelayEvent"),
                 (event_uri, MOB "delayMinutes", Node.lit (.flo delay_min) (XSDdt "float")),
                 (event_uri, MOB "delayUnit", UNITn "MIN")]
                ++ optTriples (strPresent row.DELAY_CATEGORY) (fun cat =>
                    [(event_uri, MOB "delayCategory", MOB cat)])
              | none => []
            else [])
      | _, _, _, _ => [])

/-- Loop body of `process_bus_performance_hourly` (`generate_ttl.py`,
lines 192-217). -/
def process_bus_performance_row (row : BusPerfHourlyRow) : List Triple :=
  let perf_id := pyStr row.LINE_ID ++ "_" ++ pyStr row.ZONE_ID ++ "_" ++
    pyStr row.EVENT_DATE ++ "_" ++ pyStr row.EVENT_HOUR
  match to_uri "performance" (some perf_id), to_uri "route" row.LINE_ID,
        to_uri "zone" row.ZONE_ID with
  | some perf_uri, some route_uri, some zone_uri =>
    [(perf_uri, RDF_type, MOB "AggregatedPerformance"),
     (perf_uri, MOB "route", route_uri),
     (perf_uri, MOB "zone", zone_uri),
     (perf_uri, MOB "performanceDate", Node.lit (.str (pyStr row.EVENT_DATE)) (XSDdt "date"))]
    ++ optTriples (safe_int_ok row.EVENT_HOUR) (fun hour =>
        [(perf_uri, MOB "performanceHour", Node.lit (.intv hour) (XSDdt "integer"))])
    ++ optTriples (safe_float row.AVG_DELAY_MINUTES) (fun v =>
        [(perf_uri, MOB "averageDelayMinutes", Node.lit (.flo v) (XSDdt "float"))])
    ++ optTriples (safe_float row.MAX_DELAY_MINUTES) (fun v =>
        [(perf_uri, MOB "maxDelayMinutes", Node.lit (.flo v) (XSDdt "float"))])
    ++ optTriples (safe_float row.AVG_SPEED_KMH) (fun v =>
        [(perf_uri, MOB "averageSpeedKmh", Node.lit (.flo v) (XSDdt "float"))])
    ++ optTriples (safe_float row.DELAY_RATE_PCT) (fun v =>
        [(perf_uri, MOB "delayRatePercent", Node.lit (.flo v) (XSDdt "float"))])
  | _, _, _ => []

/-- Models the loop body of `process_planning_clean` together with its
exception behaviour.  The URI skip check precedes the `safe_int` call, so a
skipped row never raises; for a non-skipped row, `none` models the uncaught
`OverflowError` escaping from `safe_int(row['FREQUENCY_MIN'])` and aborting
the run, and `some` the row's graph contribution otherwise. -/
def process_planning_row_run (row : PlanningCleanRow) : Option (List Triple) :=
  let schedule_id := pyStr row.LINE_ID ++ "_" ++ pyStr row.ZONE_ID ++ "_" ++
    pyStr row.DAY_TYPE ++ "_" ++ pyStr row.SCHEDULED_TIME
  match to_uri "schedule" (some schedule_id), to_uri "route" row.LINE_ID,
        to_uri "zone" row.ZONE_ID with
  | some _, some _, some _ =>
    match safe_int row.FREQUENCY_MIN with
    | .error _ => none
    | .ok _ => some (process_planning_row row)
  | _, _, _ => some []

/-- Models the loop body of `process_traffic_clean` together with its
exception behaviour: `none` is the uncaught `OverflowError` escaping from
`safe_int(row['TRAFFIC_VOLUME'])` on a non-skipped row. -/
def process_traffic_row_run (row : TrafficCleanRow) : Option (List Triple) :=
  let obs_id := pyStr row.ZONE_ID ++ "_" ++ pyStr row.TIMESTAMP
  match to_uri "traffic_obs" (some obs_id), to_uri "zone" row.ZONE_ID with
  | some _, some _ =>
    match safe_int row.TRAFFIC_VOLUME with
    | .error _ => none
    | .ok _ => some (process_traffic_row row)
  | _, _ => some []

/-- Models the loop body of `process_bus_performance_hourly` together with its
exception behaviour: `none` is the uncaught `OverflowError` escaping from
`safe_int(row['EVENT_HOUR'])` on a non-skipped row. -/
def process_bus_performance_row_run (row : BusPerfHourlyRow) : Option (List Triple) :=
  let perf_id := pyStr row.LINE_ID ++ "_" ++ pyStr row.ZONE_ID ++ "_" ++
    pyStr row.EVENT_DATE ++ "_" ++ pyStr row.EVENT_HOUR
  match to_uri "performance" (some perf_id), to_uri "route" row.LINE_ID,
        to_uri "zone" row.ZONE_ID with
  | some _, some _, some _ =>
    match safe_int row.EVENT_HOUR with
    | .error _ => none
    | .ok _ => some (process_bus_performance_row row)
  | _, _, _ => some []

/-- Models `process_traffic_clean`: the graph is the concatenation of the rows'
contributions (rdflib `Graph.add` per row, in row order). -/
def process_traffic_clean (rows : List TrafficCleanRow) : List Triple :=
  rows.flatMap process_traffic_row

/-- Models `process_zone_mapping` over a table. -/
def process_zone_mapping (rows : List ZoneMappingRow) : List Triple :=
  rows.flatMap process_zone_mapping_row

/-- Models `process_planning_clean` over a table. -/
def process_planning_clean (rows : List PlanningCleanRow) : List Triple :=
  rows.flatMap process_planning_row

/-- Models `process_bus_performance_hourly` over a table. -/
def process_bus_performance_hourly (rows : List BusPerfHourlyRow) : List Triple :=
  rows.flatMap process_bus_performance_row

/-- Models `process_bus_gps_clean` over a table; `none` when some row raises on a
missing `EVENT_TIME`. -/
def process_bus_gps_clean (rows : List BusGpsCleanRow) : Option (List Triple) :=
  (rows.mapM process_bus_gps_row).map (·.flatMap id)

/-! ## Dataset synthesizer (`generate_data.py`): shared tables -/

/-- Models `ZONES = [f"Z{i}" for i in range(1, 9)]` (`generate_data.py`, line 35). -/
def ZONES : List String := ["Z1", "Z2", "Z3", "Z4", "Z5", "Z6", "Z7", "Z8"]

/-- Models `ZONE_TO_AREA_CODE` (`generate_data.py`, line 38): `Z{i} ↦ A{i:02d}`. -/
def ZONE_TO_AREA_CODE : List (String × String) :=
  [("Z1", "A01"), ("Z2", "A02"), ("Z3", "A03"), ("Z4", "A04"),
   ("Z5", "A05"), ("Z6", "A06"), ("Z7", "A07"), ("Z8", "A08")]

/-- Models `ZONE_TO_SERVICE_ZONE` (`generate_data.py`, line 39). -/
def ZONE_TO_SERVICE_ZONE : List (String × String) :=
  ZONES.map fun z => (z, "ServiceZone-" ++ z)

/-- Dictionary access with a default (every call site passes a present key). -/
def lookupD {α : Type} (m : List (String × α)) (k : String) (d : α) : α :=
  ((m.find? fun p => p.1 == k).map (·.2)).getD d

/-- Two-digit decimal rendering (`{:02d}`). -/
def twoDigit (n : ℕ) : String := if n < 10 then "0" ++ toString n else toString n

/-- Models `ts.strftime("%Y-%m-%d %H:%M")` for a minute-of-day on 2025-03-10. -/
def fmtTimeMin (m : ℕ) : String :=
  "2025-03-10 " ++ twoDigit (m / 60) ++ ":" ++ twoDigit (m % 60)

/-- Models `ts.strftime("%Y-%m-%d %H:%M:%S")`; every bus timestamp falls on a whole
minute, so the seconds field is `00`. -/
def fmtTimeSec (m : ℕ) : String := fmtTimeMin m ++ ":00"

/-! ## Traffic CSV generator (`generate_data.py`, lines 81-161) -/

/-- A generated traffic CSV cell: the two injectable fields can be blanked. -/
inductive TCell
  | blank
  | val (q : ℚ)
deriving DecidableEq

/-- A generated traffic row
(`[z, ts, round(speed, 1), volume, round(occ, 2)]`, line 134). -/
structure TrafficRow where
  zone_id : String
  timestamp : String
  average_speed_kmh : TCell
  traffic_volume : ℤ
  occupancy_rate : TCell
deriving DecidableEq

/-- A zone's traffic profile (`generate_data.py`, lines 97-106). -/
structure ZoneProfile where
  base_speed : ℚ
  base_vol : ℚ
  peak_strength : ℚ
deriving DecidableEq

/-- Models `zone_profile` (`generate_data.py`, lines 97-106). -/
def zone_profile : List (String × ZoneProfile) :=
  [("Z1", ⟨52, 140, 55/100⟩), ("Z2", ⟨56, 120, 40/100⟩),
   ("Z3", ⟨58, 110, 30/100⟩), ("Z4", ⟨54, 130, 35/100⟩),
   ("Z5", ⟨60, 90, 20/100⟩), ("Z6", ⟨50, 150, 60/100⟩),
   ("Z7", ⟨62, 75, 10/100⟩), ("Z8", ⟨55, 115, 33/100⟩)]

/-- Profile lookup (`zone_profile[z]`). -/
def profileOf (z : String) : ZoneProfile := lookupD zone_profile z ⟨0, 0, 0⟩

/-- The traffic time grid: `dt_range(07:00, 12:40, 5 min)` enumerates the 69
minutes-of-day `420, 425, ..., 760`. -/
def traffic_timestamps : List ℕ := (List.range 69).map fun i => 420 + 5 * i

/-- The three `random.uniform` noises one traffic row consumes
(speed, volume, occupancy). -/
structure TDraw where
  noiseSpeed : ℚ
  noiseVol : ℚ
  noiseOcc : ℚ
deriving DecidableEq

/-- Body of the traffic row loop (`generate_data.py`, lines 115-134).
`peak_factor` stands for `math.exp(-(diff_min²)/(2·50²))`, a transcendental
the embedding takes as an oracle of the timestamp; no claim depends on its
value, only on the clamps downstream of it. -/
def mk_traffic_row (z : String) (prof : ZoneProfile) (tsMin : ℕ) (peak_factor : ℚ)
    (d : TDraw) : TrafficRow :=
  let speed := clamp (prof.base_speed * (1 - prof.peak_strength * peak_factor) + d.noiseSpeed) 8 80
  let volume := pyTrunc (clamp (prof.base_vol * (1 + 9/10 * prof.peak_strength * peak_factor) + d.noiseVol) 20 450)
  let occ := clamp (18/100 + (volume : ℚ) / 500 + 25/100 * prof.peak_strength * peak_factor + d.noiseOcc) (5/100) (99/100)
  { zone_id := z
    timestamp := fmtTimeMin tsMin
    average_speed_kmh := .val (roundTo 1 speed)
    traffic_volume := volume
    occupancy_rate := .val (roundTo 2 occ) }

/-- The nested generation loops (`for z in ZONES: for ts in timestamps:`),
before imperfection injection.  `draws n` is the noise triple of the `n`-th
row generated. -/
def traffic_base_rows (pf : ℕ → ℚ) (draws : ℕ → TDraw) : List TrafficRow :=
  (List.range 8).flatMap fun zi =>
    (List.range 69).map fun ti =>
      let z := ZONES.getD zi ""
      let m := traffic_timestamps.getD ti 0
      mk_traffic_row z (profileOf z) m (pf m) (draws (zi * 69 + ti))

/-- Models `int(total * TRAFFIC_MISSING_RATE)`: `⌊total · 0.03⌋` (exact at the
program's `total = 552`, where the float product is `16.56`). -/
def missCount (total : ℕ) : ℕ := (⌊(total : ℚ) * (3/100)⌋).toNat

/-- Models `int(total * TRAFFIC_OUTLIER_RATE)`: `⌊total · 0.01⌋`. -/
def outCount (total : ℕ) : ℕ := (⌊(total : ℚ) * (1/100)⌋).toNat

/-- In-place update of one list element (`rows[i] = ...`); out-of-range
indices never occur (`random.sample` draws from `range(total)`). -/
def updAt {α : Type} (f : α → α) : ℕ → List α → List α
  | _, [] => []
  | 0, a :: as => f a :: as
  | n + 1, a :: as => a :: updAt f n as

/-- One iteration of an injection loop: update the row at the drawn index. -/
def applyUpd {α β : Type} (g : β → α → α) (rows : List α) (p : ℕ × β) : List α :=
  updAt (g p.2) p.1 rows

/-- Missing-value injection body (`generate_data.py`, lines 143-148): the
coin is `random.random() < 0.6`; heads blanks the speed, tails the
occupancy. -/
def missUpd (c : Bool) (r : TrafficRow) : TrafficRow :=
  if c then { r with average_speed_kmh := .blank } else { r with occupancy_rate := .blank }

/-- Outlier injection body (`generate_data.py`, lines 152-156): the coin is
`random.random() < 0.5`; heads replaces the speed with the drawn choice from
`[2.0, 4.5, 120.0]`, tails replaces the occupancy with
`round(uniform(1.01, 1.10), 2)`. -/
def outUpd (p : Bool × ℚ) (r : TrafficRow) : TrafficRow :=
  if p.1 then { r with average_speed_kmh := .val p.2 }
  else { r with occupancy_rate := .val (roundTo 2 p.2) }

/-- The two injection loops (`generate_data.py`, lines 142-156): first blank
the sampled missing indices, then plant the sampled outliers. -/
def inject_imperfections (rows : List TrafficRow) (miss : List (ℕ × Bool))
    (outs : List (ℕ × Bool × ℚ)) : List TrafficRow :=
  outs.foldl (applyUpd outUpd) (miss.foldl (applyUpd missUpd) rows)

/-- A row has a blanked (missing) injectable field. -/
def rowHasBlank (r : TrafficRow) : Bool :=
  r.average_speed_kmh == TCell.blank || r.occupancy_rate == TCell.blank

/-- A speed cell holds one of the planted outlier values (all outside the
normal clamp range `[8, 80]`). -/
def speedIsOutlier : TCell → Bool
  | .blank => false
  | .val q => q == 2 || q == 9/2 || q == 120

/-- An occupancy cell holds an out-of-range value (`> 1`, while normal
generation clamps to `[0.05, 0.99]`). -/
def occIsOutlier : TCell → Bool
  | .blank => false
  | .val q => decide (1 < q)

/-- A row carries a planted outlier value. -/
def rowHasOutlier (r : TrafficRow) : Bool :=
  speedIsOutlier r.average_speed_kmh || occIsOutlier r.occupancy_rate

/-- The row at index `i` has a blanked field. -/
def blankAt (l : List TrafficRow) (i : ℕ) : Bool :=
  match l[i]? with
  | some r => rowHasBlank r
  | none => false

/-- The row at index `i` carries an outlier value. -/
def outlierAt (l : List TrafficRow) (i : ℕ) : Bool :=
  match l[i]? with
  | some r => rowHasOutlier r
  | none => false

/-! ## Bus GeoJSON generator (`generate_data.py`, lines 166-289) -/

/-- Models `lines = [f"L{i}" for i in range(1, 9)]` (`generate_data.py`, line 182). -/
def LINES : List String := ["L1", "L2", "L3", "L4", "L5", "L6", "L7", "L8"]

/-- Models `line_zones` (`generate_data.py`, lines 183-192). -/
def line_zones : List (String × List String) :=
  [("L1", ["Z1", "Z2", "Z4"]), ("L2", ["Z6", "Z1", "Z8"]),
   ("L3", ["Z3", "Z4", "Z5"]), ("L4", ["Z7", "Z5", "Z8"]),
   ("L5", ["Z2", "Z3", "Z6"]), ("L6", ["Z8", "Z4", "Z1"]),
   ("L7", ["Z5", "Z2", "Z7"]), ("L8", ["Z6", "Z3", "Z8"])]

/-- Models `line_zones[line_id]`. -/
def lineZonesOf (l : String) : List String := lookupD line_zones l []

/-- Models `zone_center` (`generate_data.py`, lines 196-205), as `(lat, lon)`. -/
def zone_center : List (String × (ℚ × ℚ)) :=
  [("Z1", (33590/1000, -7620/1000)), ("Z2", (33600/1000, -7610/1000)),
   ("Z3", (33585/1000, -7605/1000)), ("Z4", (33575/1000, -7615/1000)),
   ("Z5", (33565/1000, -7600/1000)), ("Z6", (33610/1000, -7630/1000)),
   ("Z7", (33555/1000, -7625/1000)), ("Z8", (33595/1000, -7595/1000))]

/-- Models `zone_center[z]`. -/
def zoneCenterOf (z : String) : ℚ × ℚ := lookupD zone_center z (0, 0)

/-- Models `ZONE_TO_AREA_CODE[z]`. -/
def areaCodeOf (z : String) : String := lookupD ZONE_TO_AREA_CODE z ""

/-- Decoding an area code back to its canonical zone through the fixed
synonym table. -/
def areaCodeToZone (a : String) : Option String :=
  (ZONE_TO_AREA_CODE.find? fun p => p.2 == a).map (·.1)

/-- A generated GeoJSON bus feature (geometry coordinates and the
`properties` object, `generate_data.py`, lines 265-279). -/
structure BusFeat where
  bus_id : String
  line_id : String
  area_code : String
  timestamp : String
  delay_minutes : Option ℤ
  speed_kmh : ℚ
  lon : ℚ
  lat : ℚ
deriving DecidableEq

/-- The random draws one bus point consumes: coordinate jitters
(`uniform(-0.0025, 0.0025)`), the two speed draws (`uniform(18, 35)`,
re-drawn as `uniform(8, 20)` in congested zones), the two delay increments
(`randint(2, 7)` congested / `randint(-1, 3)` otherwise), and the
missing-delay coin (`random.random() < 0.02`). -/
structure BusPtDraw where
  jlat : ℚ
  jlon : ℚ
  speedFree : ℚ
  speedCong : ℚ
  incCong : ℤ
  incFree : ℤ
  missDelay : Bool
deriving DecidableEq

/-- The per-bus draws: `random.choice(lines)` (modelled as an index, reduced
mod 8) and `randint(0, 30)` (reduced mod 31). -/
structure BusDraw where
  lineIdx : ℕ
  t0off : ℕ
deriving DecidableEq

/-- Body of the bus point loop (`generate_data.py`, lines 227-280). -/
def mk_bus_point (bus_id line_id : String) (zones_path : List String)
    (base_delay : ℤ) (t0min k : ℕ) (d : BusPtDraw) : BusFeat :=
  let tmin := t0min + k
  let seg := (k / max 1 (120 / zones_path.length)) % zones_path.length
  let z := zones_path.getD seg ""
  let lat := (zoneCenterOf z).1 + d.jlat
  let lon := (zoneCenterOf z).2 + d.jlon
  let congested := z == "Z1" || z == "Z6"
  let speed := if congested then d.speedCong else d.speedFree
  let peak_bonus : ℤ := if 465 ≤ tmin ∧ tmin ≤ 540 then 3 else 0
  let delay := max 0 (min 35 (base_delay + peak_bonus + (if congested then d.incCong else d.incFree)))
  { bus_id := bus_id
    line_id := line_id
    area_code := areaCodeOf z
    timestamp := fmtTimeSec tmin
    delay_minutes := if d.missDelay then none else some delay
    speed_kmh := roundTo 1 speed
    lon := roundTo 6 lon
    lat := roundTo 6 lat }

/-- Models `generate_bus_geojson`'s feature list (`generate_data.py`,
lines 210-280): 15 buses, each assigned a line and a start offset, each
contributing 120 one-minute-spaced points. -/
def generate_bus_features (dB : ℕ → BusDraw) (dP : ℕ → ℕ → BusPtDraw) : List BusFeat :=
  (List.range 15).flatMap fun b =>
    let bus_id := "BUS-" ++ twoDigit (b + 1)
    let line_id := LINES.getD ((dB b).lineIdx % 8) ""
    let zones_path := lineZonesOf line_id
    let t0 := 420 + (dB b).t0off % 31
    let base_delay : ℤ := if "Z1" ∈ zones_path ∨ "Z6" ∈ zones_path then 6 else 2
    (List.range 120).map fun k =>
      mk_bus_point bus_id line_id zones_path base_delay t0 k (dP b k)

/-! ## Planning TXT generator (`generate_data.py`, lines 294-353) -/

/-- Models `PLANNING_LINES = 180` (`generate_data.py`, line 57). -/
def PLANNING_LINES : ℕ := 180

/-- The 36 candidate scheduled times, every 10 minutes from 07:00
(`generate_data.py`, line 313). -/
def planning_times : List String :=
  (List.range 36).map fun i =>
    twoDigit ((420 + 10 * i) / 60) ++ ":" ++ twoDigit ((420 + 10 * i) % 60)

/-- Models `day_types` (`generate_data.py`, line 309). -/
def day_types : List String := ["weekday", "weekend"]

/-- Models `freq_options` (`generate_data.py`, line 316). -/
def freq_options : List ℕ := [6, 8, 10, 12, 15]

/-- Models `int(scheduled_time.split(":")[0])` (`generate_data.py`, line 328). -/
def hourOf (t : String) : ℕ := natOfDigits (t.data.takeWhile fun c => c != ':')

/-- The random draws one planning record consumes (each `random.choice`
modelled as an index reduced mod the candidate count, plus the separator
coin `random.random() < 0.85`). -/
structure PlanDraw where
  lineIdx : ℕ
  zoneIdx : ℕ
  dayIdx : ℕ
  timeIdx : ℕ
  freqIdx : ℕ
  sepPipe : Bool
deriving DecidableEq

/-- Body of the planning loop (`generate_data.py`, lines 321-345): one
formatted record line. -/
def mk_planning_line (d : PlanDraw) : String :=
  let line_id := LINES.getD (d.lineIdx % LINES.length) ""
  let z := ZONES.getD (d.zoneIdx % ZONES.length) ""
  let service_zone := lookupD ZONE_TO_SERVICE_ZONE z ""
  let day_type := day_types.getD (d.dayIdx % day_types.length) ""
  let scheduled_time := planning_times.getD (d.timeIdx % planning_times.length) ""
  let hh := hourOf scheduled_time
  let peak := 7 ≤ hh ∧ hh ≤ 9
  let frequency :=
    if day_type = "weekday" ∧ peak then [6, 8, 10].getD (d.freqIdx % 3) 0
    else freq_options.getD (d.freqIdx % 5) 0
  let sep := if d.sepPipe then " | " else " ; "
  "line_id=" ++ line_id ++ sep ++ "service_zone=" ++ service_zone ++ sep ++
    "day_type=" ++ day_type ++ sep ++ "scheduled_time=" ++ scheduled_time ++ sep ++
    "frequency_min=" ++ toString frequency

/-- Models `while len(records) < PLANNING_LINES:` (`generate_data.py`,
lines 320-345): each iteration appends exactly one record; `draw` is indexed
by the iteration count (= current record count). -/
def planning_loop (draw : ℕ → PlanDraw) (records : List String) : List String :=
  if records.length < PLANNING_LINES then
    planning_loop draw (records ++ [mk_planning_line (draw records.length)])
  else records
termination_by PLANNING_LINES - records.length
decreasing_by simp [List.length_append]; omega

/-- Models `generate_planning_txt`'s record list. -/
def generate_planning_txt (draw : ℕ → PlanDraw) : List String := planning_loop draw []

/-! ## A concrete deterministic stand-in for the `random` module

CPython's `random` is a deterministic PRNG (Mersenne Twister); only its
determinism matters to the claims, so a linear-congruential generator stands
in for it.  `random.seed(SEED)` replaces the module's state with a function
of the seed alone — which is exactly what makes re-runs reproducible. -/

/-- Models `SEED = 42` (`generate_data.py`, line 31). -/
def SEED : ℕ := 42

/-- One PRNG state transition (64-bit LCG stand-in). -/
def rngStep (s : ℕ) : ℕ := (6364136223846793005 * s + 1442695040888963407) % 2 ^ 64

/-- Models `random.random()`: a rational in `[0, 1)` and the next state. -/
def rngUnit (s : ℕ) : ℚ × ℕ :=
  let t := rngStep s
  ((t % 2 ^ 53 : ℕ) / (2 ^ 53 : ℚ), t)

/-- Models `random.uniform(lo, hi)`. -/
def rngUniform (lo hi : ℚ) (s : ℕ) : ℚ × ℕ :=
  let p := rngUnit s
  (lo + (hi - lo) * p.1, p.2)

/-- An index draw below `n` (for `random.choice`). -/
def rngChoiceIdx (n : ℕ) (s : ℕ) : ℕ × ℕ :=
  let t := rngStep s
  (t % n, t)

/-- Models `random.sample(pop, k)`: selection sampling — repeatedly pick a random
remaining element and remove it. -/
def rngSampleAux : ℕ → List ℕ → ℕ → List ℕ × ℕ
  | 0, _, s => ([], s)
  | _ + 1, [], s => ([], s)
  | k + 1, x :: xs, s =>
    let t := rngStep s
    let i := t % (x :: xs).length
    let chosen := (x :: xs).getD i x
    let rest := (x :: xs).eraseIdx i
    let r := rngSampleAux k rest t
    (chosen :: r.1, r.2)

/-- Models `random.sample(pop, k)` with the state threaded. -/
def rngSample (pop : List ℕ) (k : ℕ) (s : ℕ) : List ℕ × ℕ := rngSampleAux k pop s

/-- The 3 uniform noises of each of `n` traffic rows, in program order. -/
def genTrafficDraws : ℕ → ℕ → List TDraw × ℕ
  | 0, s => ([], s)
  | n + 1, s =>
    let a := rngUniform (-(3/2)) (3/2) s
    let b := rngUniform (-8) 8 a.2
    let c := rngUniform (-(1/50)) (1/50) b.2
    let r := genTrafficDraws n c.2
    (⟨a.1, b.1, c.1⟩ :: r.1, r.2)

/-- The per-missing-index field coins (`random.random() < 0.6`). -/
def genMissCoins : List ℕ → ℕ → List (ℕ × Bool) × ℕ
  | [], s => ([], s)
  | i :: is, s =>
    let u := rngUnit s
    let r := genMissCoins is u.2
    ((i, decide (u.1 < 6/10)) :: r.1, r.2)

/-- The per-outlier-index draws: the field coin, then either the choice from
`[2.0, 4.5, 120.0]` or `uniform(1.01, 1.10)`. -/
def genOutDraws : List ℕ → ℕ → List (ℕ × Bool × ℚ) × ℕ
  | [], s => ([], s)
  | i :: is, s =>
    let u := rngUnit s
    if u.1 < 1/2 then
      let c := rngChoiceIdx 3 u.2
      let v := [(2 : ℚ), 9/2, 120].getD c.1 0
      let r := genOutDraws is c.2
      ((i, true, v) :: r.1, r.2)
    else
      let q := rngUniform (101/100) (110/100) u.2
      let r := genOutDraws is q.2
      ((i, false, q.1) :: r.1, r.2)

/-- One full run of `generate_traffic_csv` (`generate_data.py`,
lines 81-161) against the concrete PRNG stand-in.  `ambient` is the module's
RNG state when the run starts; the first statement of the source,
`random.seed(SEED)`, discards it.  `pf` is the `math.exp` oracle. -/
def generate_traffic_run (pf : ℕ → ℚ) (ambient : ℕ) : List TrafficRow :=
  let s0 := rngStep SEED
  let dr := genTrafficDraws 552 s0
  let rows := traffic_base_rows pf (fun i => dr.1.getD i ⟨0, 0, 0⟩)
  let total := rows.length
  let m := rngSample (List.range total) (missCount total) dr.2
  let mc := genMissCoins m.1 m.2
  let pop := (List.range total).filter fun i => !m.1.contains i
  let o := rngSample pop (outCount total) mc.2
  let oc := genOutDraws o.1 o.2
  inject_imperfections rows mc.1 oc.1

/-- Rendering of a generated cell in the CSV (a blank cell renders empty;
the rational rendering stands in for CPython float formatting — only
determinism matters to the byte-identity claim). -/
def cellRepr : TCell → String
  | .blank => ""
  | .val q => ratRepr q

/-- The bytes of `traffic_data.csv`: header line then one line per row. -/
def traffic_csv (rows : List TrafficRow) : String :=
  "zone_id,timestamp,average_speed_kmh,traffic_volume,occupancy_rate" ++
  String.join (rows.map fun r =>
    "\n" ++ r.zone_id ++ "," ++ r.timestamp ++ "," ++ cellRepr r.average_speed_kmh ++
    "," ++ toString r.traffic_volume ++ "," ++ cellRepr r.occupancy_rate)

/-- The guard of the DelayEvent block (`generate_ttl.py`, line 176):
`DELAY_MINUTES` parses and is strictly positive. -/
def hasPosDelay (row : BusGpsCleanRow) : Prop :=
  ∃ d, safe_float row.DELAY_MINUTES = some d ∧ 0 < d

/-! ## Concrete rows used by the witnesses -/

/-- A `TRAFFIC_CLEAN` row with a blank `ZONE_ID`. -/
def trafficSkipRow : TrafficCleanRow :=
  ⟨none, some "2025-03-10 07:00", some "34.5", some "120", some "0.44", some "HEAVY", some "True"⟩

/-- A `ZONE_MAPPING` row with a blank `ZONE_ID`. -/
def zoneMappingSkipRow : ZoneMappingRow := ⟨none, some "A01", some "ServiceZone-Z1"⟩

/-- A `PLANNING_CLEAN` row with a blank `LINE_ID`. -/
def planningSkipRow : PlanningCleanRow :=
  ⟨none, some "Z1", some "weekday", some "07:30", some "10", some "True"⟩

/-- A `BUS_GPS_CLEAN` row with a blank `LINE_ID`. -/
def busSkipRow : BusGpsCleanRow :=
  ⟨some "2025-03-10 08:00:00", some "BUS-01", none, some "Z1", some "33.59",
   some "-7.62", some "20.0", some "True", some "5.0", some "MINOR_DELAY"⟩

/-- A `BUS_PERFORMANCE_HOURLY` row with a blank `LINE_ID`. -/
def perfSkipRow : BusPerfHourlyRow :=
  ⟨none, some "Z1", some "2025-03-10", some "8", some "4.2", some "11.0", some "22.5", some "37.5"⟩

/-- A `TRAFFIC_CLEAN` row whose `AVERAGE_SPEED_KMH` does not parse. -/
def trafficBadSpeedRow : TrafficCleanRow :=
  ⟨some "Z1", some "2025-03-10 07:00", some "abc", some "120", some "0.44", some "HEAVY", some "True"⟩

/-- The observation URI of `trafficBadSpeedRow`. -/
def trafficBadSpeedObs : Node :=
  (to_uri "traffic_obs" (some (pyStr trafficBadSpeedRow.ZONE_ID ++ "_" ++
    pyStr trafficBadSpeedRow.TIMESTAMP))).getD (Node.uri "")

/-- The zone URI of `trafficBadSpeedRow`. -/
def trafficBadSpeedZone : Node :=
  (to_uri "zone" trafficBadSpeedRow.ZONE_ID).getD (Node.uri "")

/-- A `TRAFFIC_CLEAN` row whose numeric/boolean fields all fail to parse. -/
def trafficAllBadRow : TrafficCleanRow :=
  ⟨some "Z1", some "2025-03-10 07:00", none, some "abc", none, some "HEAVY", none⟩

/-- A `PLANNING_CLEAN` row whose numeric/boolean fields fail to parse. -/
def planningBadRow : PlanningCleanRow :=
  ⟨some "L1", some "Z1", some "weekday", some "07:30", some "abc", none⟩

/-- A `PLANNING_CLEAN` row with resolvable identifier URIs whose
`FREQUENCY_MIN` cell `"1e400"` parses past the IEEE double range:
`float("1e400")` is `inf` and `int(inf)` raises an uncaught
`OverflowError`. -/
def planningOverflowRow : PlanningCleanRow :=
  ⟨some "L1", some "Z1", some "weekday", some "07:30", some "1e400", some "True"⟩

/-- A `BUS_PERFORMANCE_HOURLY` row whose numeric fields fail to parse. -/
def perfBadRow : BusPerfHourlyRow :=
  ⟨some "L1", some "Z1", some "2025-03-10", none, some "x", none, some "", some "?"⟩

/-- A `BUS_GPS_CLEAN` row whose numeric/boolean fields fail to parse. -/
def busBadRow : BusGpsCleanRow :=
  ⟨some "2025-03-10 08:00:00", some "BUS-01", some "L1", some "Z1", none, some "x",
   some "", none, some "zz", some "MINOR_DELAY"⟩

/-- The triples `busBadRow` contributes. -/
def busBadTriples : List Triple := (process_bus_gps_row busBadRow).getD []

/-- A `BUS_GPS_CLEAN` row with a positive delay and a delay category. -/
def busDelayRow : BusGpsCleanRow :=
  ⟨some "2025-03-10 08:00:00", some "BUS-01", some "L1", some "Z1", some "33.59",
   some "-7.62", some "20.0", some "True", some "5", some "MINOR_DELAY"⟩

/-- The triples `busDelayRow` contributes. -/
def busDelayTriples : List Triple := (process_bus_gps_row busDelayRow).getD []

/-- The trip URI of `busDelayRow`. -/
def busDelayTrip : Node :=
  (to_uri "trip" (some (pyStr busDelayRow.BUS_ID ++ "_" ++
    (chReplace "2025-03-10 08:00:00" ' ' 'T' ++ "Z")))).getD (Node.uri "")

/-- The vehicle URI of `busDelayRow`. -/
def busDelayVehicle : Node := (to_uri "vehicle" busDelayRow.BUS_ID).getD (Node.uri "")

/-- The route URI of `busDelayRow`. -/
def busDelayRoute : Node := (to_uri "route" busDelayRow.LINE_ID).getD (Node.uri "")

/-- The zone URI of `busDelayRow`. -/
def busDelayZone : Node := (to_uri "zone" busDelayRow.ZONE_ID).getD (Node.uri "")

/-- The delay-event URI of `busDelayRow`. -/
def busDelayEvent : Node :=
  (to_uri "delay_event" (some (pyStr busDelayRow.BUS_ID ++ "_" ++
    (chReplace "2025-03-10 08:00:00" ' ' 'T' ++ "Z")))).getD (Node.uri "")

/-- A `BUS_GPS_CLEAN` row with a positive delay but a blank `DELAY_CATEGORY`. -/
def busNoCatRow : BusGpsCleanRow :=
  ⟨some "2025-03-10 08:00:00", some "BUS-01", some "L1", some "Z1", some "33.59",
   some "-7.62", some "20.0", some "True", some "5", none⟩

/-- The triples `busNoCatRow` contributes. -/
def busNoCatTriples : List Triple := (process_bus_gps_row busNoCatRow).getD []

/-- A concrete peak-factor oracle for the generator witnesses. -/
def wPf : ℕ → ℚ := fun _ => 1/2

/-- A concrete noise stream for the generator witnesses. -/
def wDraws : ℕ → TDraw := fun _ => ⟨0, 0, 0⟩

/-- A concrete missing-injection selection: 16 distinct indices with mixed
field coins. -/
def wMiss : List (ℕ × Bool) := (List.range 16).map fun i => (i, decide (i % 2 = 0))

/-- A concrete outlier-injection selection: 5 indices outside `wMiss`. -/
def wOuts : List (ℕ × Bool × ℚ) :=
  [(20, true, 2), (21, true, 9/2), (22, true, 120), (23, false, 101/100), (24, false, 11/10)]

/-- The injected table for the generator witnesses. -/
def wResult : List TrafficRow :=
  inject_imperfections (traffic_base_rows wPf wDraws) wMiss wOuts

/-- Concrete per-bus draws for the bus-generator witness. -/
def wBusDraw : ℕ → BusDraw := fun _ => ⟨0, 0⟩

/-- Concrete per-point draws for the bus-generator witness. -/
def wBusPtDraw : ℕ → ℕ → BusPtDraw := fun _ _ => ⟨0, 0, 20, 10, 3, 1, false⟩

/-- The first feature generated from the witness draws (the body of the
generation loops at bus 0, point 0). -/
def wBusFeat : BusFeat :=
  mk_bus_point ("BUS-" ++ twoDigit (0 + 1)) (LINES.getD ((wBusDraw 0).lineIdx % 8) "")
    (lineZonesOf (LINES.getD ((wBusDraw 0).lineIdx % 8) ""))
    (if "Z1" ∈ lineZonesOf (LINES.getD ((wBusDraw 0).lineIdx % 8) "") ∨
        "Z6" ∈ lineZonesOf (LINES.getD ((wBusDraw 0).lineIdx % 8) "") then 6 else 2)
    (420 + (wBusDraw 0).t0off % 31) 0 (wBusPtDraw 0 0)

/-! ## Theorems -/

theorem mem_optTriples {α : Type} {x : Option α} {f : α → List Triple} {t : Triple}
    (h : t ∈ optTriples x f) : ∃ a, x = some a ∧ t ∈ f a := by
  cases x with
  | none => simp [optTriples] at h
  | some a => exact ⟨a, rfl, h⟩

theorem mem_opt2Triples {α β : Type} {x : Option α} {y : Option β}
    {f : α → β → List Triple} {t : Triple} (h : t ∈ opt2Triples x y f) :
    ∃ a b, x = some a ∧ y = some b ∧ t ∈ f a b := by
  cases x with
  | none => simp [opt2Triples] at h
  | some a =>
    cases y with
    | none => simp [opt2Triples] at h
    | some b => exact ⟨a, b, rfl, rfl, h⟩

theorem strPresent_eq_some {x : Option String} {a : String}
    (h : strPresent x = some a) : x = some a ∧ a ≠ "" := by
  cases x with
  | none => simp [strPresent] at h
  | some v =>
    by_cases hv : v = ""
    · simp [strPresent, hv] at h
    · simp only [strPresent, if_pos hv, Option.some.injEq] at h
      exact ⟨by rw [h], h ▸ hv⟩

theorem process_traffic_row_skip (row : TrafficCleanRow)
    (h : to_uri "zone" row.ZONE_ID = none) : process_traffic_row row = [] := by
  simp only [process_traffic_row, h]
  cases to_uri "traffic_obs" (some (pyStr row.ZONE_ID ++ "_" ++ pyStr row.TIMESTAMP)) <;> rfl

theorem process_zone_mapping_row_skip (row : ZoneMappingRow)
    (h : to_uri "zone" row.ZONE_ID = none) : process_zone_mapping_row row = [] := by
  simp only [process_zone_mapping_row, h]

theorem process_planning_row_skip (row : PlanningCleanRow)
    (h : to_uri "route" row.LINE_ID = none ∨ to_uri "zone" row.ZONE_ID = none) :
    process_planning_row row = [] := by
  rcases h with h | h
  · simp only [process_planning_row, h]
    cases to_uri "schedule" (some (pyStr row.LINE_ID ++ "_" ++ pyStr row.ZONE_ID ++ "_" ++
      pyStr row.DAY_TYPE ++ "_" ++ pyStr row.SCHEDULED_TIME)) <;> rfl
  · simp only [process_planning_row, h]
    cases to_uri "schedule" (some (pyStr row.LINE_ID ++ "_" ++ pyStr row.ZONE_ID ++ "_" ++
        pyStr row.DAY_TYPE ++ "_" ++ pyStr row.SCHEDULED_TIME)) <;>
      cases to_uri "route" row.LINE_ID <;> rfl

theorem process_bus_gps_row_skip (row : BusGpsCleanRow)
    (h : to_uri "vehicle" row.BUS_ID = none ∨ to_uri "route" row.LINE_ID = none ∨
      to_uri "zone" row.ZONE_ID = none) :
    ∀ l, process_bus_gps_row row = some l → l = [] := by
  intro l hl
  rcases het : row.EVENT_TIME with _ | et
  · simp [process_bus_gps_row, het] at hl
  · simp only [process_bus_gps_row, het] at hl
    have hl2 := Option.some.inj hl
    subst hl2
    rcases h with h | h | h
    · simp only [h]
      cases to_uri "trip" (some (pyStr row.BUS_ID ++ "_" ++ (chReplace et ' ' 'T' ++ "Z"))) <;> rfl
    · simp only [h]
      cases to_uri "trip" (some (pyStr row.BUS_ID ++ "_" ++ (chReplace et ' ' 'T' ++ "Z"))) <;>
        cases to_uri "vehicle" row.BUS_ID <;> rfl
    · simp only [h]
      cases to_uri "trip" (some (pyStr row.BUS_ID ++ "_" ++ (chReplace et ' ' 'T' ++ "Z"))) <;>
        cases to_uri "vehicle" row.BUS_ID <;> cases to_uri "route" row.LINE_ID <;> rfl

theorem process_bus_performance_row_skip (row : BusPerfHourlyRow)
    (h : to_uri "route" row.LINE_ID = none ∨ to_uri "zone" row.ZONE_ID = none) :
    process_bus_performance_row row = [] := by
  rcases h with h | h
  · simp only [process_bus_performance_row, h]
    cases to_uri "performance" (some (pyStr row.LINE_ID ++ "_" ++ pyStr row.ZONE_ID ++ "_" ++
      pyStr row.EVENT_DATE ++ "_" ++ pyStr row.EVENT_HOUR)) <;> rfl
  · simp only [process_bus_performance_row, h]
    cases to_uri "performance" (some (pyStr row.LINE_ID ++ "_" ++ pyStr row.ZONE_ID ++ "_" ++
        pyStr row.EVENT_DATE ++ "_" ++ pyStr row.EVENT_HOUR)) <;>
      cases to_uri "route" row.LINE_ID <;> rfl

theorem process_traffic_row_mem (row : TrafficCleanRow) (t : Triple)
    (h : t ∈ process_traffic_row row) :
    t.2.1 = RDF_type ∨ t.2.1 = MOB "observedInZone" ∨ t.2.1 = MOB "observedAt"
    ∨ ((t.2.1 = MOB "averageSpeed" ∨ t.2.1 = MOB "speedUnit") ∧
        safe_float row.AVERAGE_SPEED_KMH ≠ none)
    ∨ (t.2.1 = MOB "trafficVolume" ∧ safe_int_ok row.TRAFFIC_VOLUME ≠ none)
    ∨ (t.2.1 = MOB "occupancyRate" ∧ safe_float row.OCCUPANCY_RATE ≠ none)
    ∨ t.2.1 = MOB "congestionLevel"
    ∨ (t.2.1 = MOB "isCongested" ∧ safe_bool row.IS_CONGESTED ≠ none) := by
  simp only [process_traffic_row] at h
  rcases hobs : to_uri "traffic_obs" (some (pyStr row.ZONE_ID ++ "_" ++ pyStr row.TIMESTAMP))
    with _ | obs <;> rw [hobs] at h
  · simp at h
  · rcases hz : to_uri "zone" row.ZONE_ID with _ | zu <;> rw [hz] at h
    · simp at h
    · simp only [List.mem_append, List.mem_cons, List.not_mem_nil, or_false] at h
      rcases h with (((((h | h | h) | hB) | hC) | hD) | hE) | hF
      · subst h; exact Or.inl rfl
      · subst h; exact Or.inr (Or.inl rfl)
      · subst h; exact Or.inr (Or.inr (Or.inl rfl))
      · obtain ⟨a, ha, hm⟩ := mem_optTriples hB
        simp only [List.mem_cons, List.not_mem_nil, or_false] at hm
        rcases hm with hm | hm
        · subst hm; exact Or.inr (Or.inr (Or.inr (Or.inl ⟨Or.inl rfl, by simp [ha]⟩)))
        · subst hm; exact Or.inr (Or.inr (Or.inr (Or.inl ⟨Or.inr rfl, by simp [ha]⟩)))
      · obtain ⟨a, ha, hm⟩ := mem_optTriples hC
        simp only [List.mem_cons, List.not_mem_nil, or_false] at hm
        subst hm
        exact Or.inr (Or.inr (Or.inr (Or.inr (Or.inl ⟨rfl, by simp [ha]⟩))))
      · obtain ⟨a, ha, hm⟩ := mem_optTriples hD
        simp only [List.mem_cons, List.not_mem_nil, or_false] at hm
        subst hm
        exact Or.inr (Or.inr (Or.inr (Or.inr (Or.inr (Or.inl ⟨rfl, by simp [ha]⟩)))))
      · obtain ⟨a, _, hm⟩ := mem_optTriples hE
        simp only [List.mem_cons, List.not_mem_nil, or_false] at hm
        subst hm
        exact Or.inr (Or.inr (Or.inr (Or.inr (Or.inr (Or.inr (Or.inl rfl))))))
      · obtain ⟨a, ha, hm⟩ := mem_optTriples hF
        simp only [List.mem_cons, List.not_mem_nil, or_false] at hm
        subst hm
        exact Or.inr (Or.inr (Or.inr (Or.inr (Or.inr (Or.inr (Or.inr ⟨rfl, by simp [ha]⟩))))))

theorem process_traffic_row_no_averageSpeed (row : TrafficCleanRow)
    (h : safe_float row.AVERAGE_SPEED_KMH = none) :
    ∀ s o, (s, MOB "averageSpeed", o) ∉ process_traffic_row row := by
  intro s o hmem
  rcases process_traffic_row_mem row _ hmem with
    hp | hp | hp | ⟨hp | hp, hg⟩ | ⟨hp, hg⟩ | ⟨hp, hg⟩ | hp | ⟨hp, hg⟩
  all_goals try exact hg h
  all_goals simp [MOB, RDF_type, RDFS_label, GEOn, UNITn] at hp

theorem process_traffic_row_no_trafficVolume (row : TrafficCleanRow)
    (h : safe_int_ok row.TRAFFIC_VOLUME = none) :
    ∀ s o, (s, MOB "trafficVolume", o) ∉ process_traffic_row row := by
  intro s o hmem
  rcases process_traffic_row_mem row _ hmem with
    hp | hp | hp | ⟨hp | hp, hg⟩ | ⟨hp, hg⟩ | ⟨hp, hg⟩ | hp | ⟨hp, hg⟩
  all_goals try exact hg h
  all_goals simp [MOB, RDF_type, RDFS_label, GEOn, UNITn] at hp

theorem process_traffic_row_no_occupancyRate (row : TrafficCleanRow)
    (h : safe_float row.OCCUPANCY_RATE = none) :
    ∀ s o, (s, MOB "occupancyRate", o) ∉ process_traffic_row row := by
  intro s o hmem
  rcases process_traffic_row_mem row _ hmem with
    hp | hp | hp | ⟨hp | hp, hg⟩ | ⟨hp, hg⟩ | ⟨hp, hg⟩ | hp | ⟨hp, hg⟩
  all_goals try exact hg h
  all_goals simp [MOB, RDF_type, RDFS_label, GEOn, UNITn] at hp

theorem process_traffic_row_no_isCongested (row : TrafficCleanRow)
    (h : safe_bool row.IS_CONGESTED = none) :
    ∀ s o, (s, MOB "isCongested", o) ∉ process_traffic_row row := by
  intro s o hmem
  rcases process_traffic_row_mem row _ hmem with
    hp | hp | hp | ⟨hp | hp, hg⟩ | ⟨hp, hg⟩ | ⟨hp, hg⟩ | hp | ⟨hp, hg⟩
  all_goals try exact hg h
  all_goals simp [MOB, RDF_type, RDFS_label, GEOn, UNITn] at hp

theorem process_planning_row_mem (row : PlanningCleanRow) (t : Triple)
    (h : t ∈ process_planning_row row) :
    t.2.1 = RDF_type ∨ t.2.1 = MOB "belongsToRoute" ∨ t.2.1 = MOB "appliesToZone"
    ∨ t.2.1 = MOB "dayType" ∨ t.2.1 = MOB "scheduledTime"
    ∨ (t.2.1 = MOB "frequencyMinutes" ∧ safe_int_ok row.FREQUENCY_MIN ≠ none)
    ∨ (t.2.1 = MOB "isPeakSchedule" ∧ safe_bool row.IS_PEAK_SCHEDULE ≠ none) := by
  simp only [process_planning_row] at h
  rcases hsch : to_uri "schedule" (some (pyStr row.LINE_ID ++ "_" ++ pyStr row.ZONE_ID ++ "_" ++
    pyStr row.DAY_TYPE ++ "_" ++ pyStr row.SCHEDULED_TIME)) with _ | su <;> rw [hsch] at h
  · simp at h
  · rcases hru : to_uri "route" row.LINE_ID with _ | ru <;> rw [hru] at h
    · simp at h
    · rcases hzu : to_uri "zone" row.ZONE_ID with _ | zu <;> rw [hzu] at h
      · simp at h
      · simp only [List.mem_append, List.mem_cons, List.not_mem_nil, or_false] at h
        rcases h with ((h | h | h | h | h) | hB) | hC
        · subst h; exact Or.inl rfl
        · subst h; exact Or.inr (Or.inl rfl)
        · subst h; exact Or.inr (Or.inr (Or.inl rfl))
        · subst h; exact Or.inr (Or.inr (Or.inr (Or.inl rfl)))
        · subst h; exact Or.inr (Or.inr (Or.inr (Or.inr (Or.inl rfl))))
        · obtain ⟨a, ha, hm⟩ := mem_optTriples hB
          simp only [List.mem_cons, List.not_mem_nil, or_false] at hm
          subst hm
          exact Or.inr (Or.inr (Or.inr (Or.inr (Or.inr (Or.inl ⟨rfl, by simp [ha]⟩)))))
        · obtain ⟨a, ha, hm⟩ := mem_optTriples hC
          simp only [List.mem_cons, List.not_mem_nil, or_false] at hm
          subst hm
          exact Or.inr (Or.inr (Or.inr (Or.inr (Or.inr (Or.inr ⟨rfl, by simp [ha]⟩)))))

theorem process_planning_row_no_frequency (row : PlanningCleanRow)
    (h : safe_int_ok row.FREQUENCY_MIN = none) :
    ∀ s o, (s, MOB "frequencyMinutes", o) ∉ process_planning_row row := by
  intro s o hmem
  rcases process_planning_row_mem row _ hmem with
    hp | hp | hp | hp | hp | ⟨hp, hg⟩ | ⟨hp, hg⟩
  all_goals try exact hg h
  all_goals simp [MOB, RDF_type, RDFS_label, GEOn, UNITn] at hp

theorem process_planning_row_no_isPeak (row : PlanningCleanRow)
    (h : safe_bool row.IS_PEAK_SCHEDULE = none) :
    ∀ s o, (s, MOB "isPeakSchedule", o) ∉ process_planning_row row := by
  intro s o hmem
  rcases process_planning_row_mem row _ hmem with
    hp | hp | hp | hp | hp | ⟨hp, hg⟩ | ⟨hp, hg⟩
  all_goals try exact hg h
  all_goals simp [MOB, RDF_type, RDFS_label, GEOn, UNITn] at hp

theorem process_bus_performance_row_mem (row : BusPerfHourlyRow) (t : Triple)
    (h : t ∈ process_bus_performance_row row) :
    t.2.1 = RDF_type ∨ t.2.1 = MOB "route" ∨ t.2.1 = MOB "zone"
    ∨ t.2.1 = MOB "performanceDate"
    ∨ (t.2.1 = MOB "performanceHour" ∧ safe_int_ok row.EVENT_HOUR ≠ none)
    ∨ (t.2.1 = MOB "averageDelayMinutes" ∧ safe_float row.AVG_DELAY_MINUTES ≠ none)
    ∨ (t.2.1 = MOB "maxDelayMinutes" ∧ safe_float row.MAX_DELAY_MINUTES ≠ none)
    ∨ (t.2.1 = MOB "averageSpeedKmh" ∧ safe_float row.AVG_SPEED_KMH ≠ none)
    ∨ (t.2.1 = MOB "delayRatePercent" ∧ safe_float row.DELAY_RATE_PCT ≠ none) := by
  simp only [process_bus_performance_row] at h
  rcases hpu : to_uri "performance" (some (pyStr row.LINE_ID ++ "_" ++ pyStr row.ZONE_ID ++ "_" ++
    pyStr row.EVENT_DATE ++ "_" ++ pyStr row.EVENT_HOUR)) with _ | pu <;> rw [hpu] at h
  · simp at h
  · rcases hru : to_uri "route" row.LINE_ID with _ | ru <;> rw [hru] at h
    · simp at h
    · rcases hzu : to_uri "zone" row.ZONE_ID with _ | zu <;> rw [hzu] at h
      · simp at h
      · simp only [List.mem_append, List.mem_cons, List.not_mem_nil, or_false] at h
        rcases h with (((((h | h | h | h) | hB) | hC) | hD) | hE) | hF
        · subst h; exact Or.inl rfl
        · subst h; exact Or.inr (Or.inl rfl)
        · subst h; exact Or.inr (Or.inr (Or.inl rfl))
        · subst h; exact Or.inr (Or.inr (Or.inr (Or.inl rfl)))
        · obtain ⟨a, ha, hm⟩ := mem_optTriples hB
          simp only [List.mem_cons, List.not_mem_nil, or_false] at hm
          subst hm
          exact Or.inr (Or.inr (Or.inr (Or.inr (Or.inl ⟨rfl, by simp [ha]⟩))))
        · obtain ⟨a, ha, hm⟩ := mem_optTriples hC
          simp only [List.mem_cons, List.not_mem_nil, or_false] at hm
          subst hm
          exact Or.inr (Or.inr (Or.inr (Or.inr (Or.inr (Or.inl ⟨rfl, by simp [ha]⟩)))))
        · obtain ⟨a, ha, hm⟩ := mem_optTriples hD
          simp only [List.mem_cons, List.not_mem_nil, or_false] at hm
          subst hm
          exact Or.inr (Or.inr (Or.inr (Or.inr (Or.inr (Or.inr (Or.inl ⟨rfl, by simp [ha]⟩))))))
        · obtain ⟨a, ha, hm⟩ := mem_optTriples hE
          simp only [List.mem_cons, List.not_mem_nil, or_false] at hm
          subst hm
          exact Or.inr (Or.inr (Or.inr (Or.inr (Or.inr (Or.inr (Or.inr (Or.inl ⟨rfl, by simp [ha]⟩)))))))
        · obtain ⟨a, ha, hm⟩ := mem_optTriples hF
          simp only [List.mem_cons, List.not_mem_nil, or_false] at hm
          subst hm
          exact Or.inr (Or.inr (Or.inr (Or.inr (Or.inr (Or.inr (Or.inr (Or.inr ⟨rfl, by simp [ha]⟩)))))))

theorem process_bus_performance_row_no_hour (row : BusPerfHourlyRow)
    (h : safe_int_ok row.EVENT_HOUR = none) :
    ∀ s o, (s, MOB "performanceHour", o) ∉ process_bus_performance_row row := by
  intro s o hmem
  rcases process_bus_performance_row_mem row _ hmem with
    hp | hp | hp | hp | ⟨hp, hg⟩ | ⟨hp, hg⟩ | ⟨hp, hg⟩ | ⟨hp, hg⟩ | ⟨hp, hg⟩
  all_goals try exact hg h
  all_goals simp [MOB, RDF_type, RDFS_label, GEOn, UNITn] at hp

theorem process_bus_performance_row_no_avgDelay (row : BusPerfHourlyRow)
    (h : safe_float row.AVG_DELAY_MINUTES = none) :
    ∀ s o, (s, MOB "averageDelayMinutes", o) ∉ process_bus_performance_row row := by
  intro s o hmem
  rcases process_bus_performance_row_mem row _ hmem with
    hp | hp | hp | hp | ⟨hp, hg⟩ | ⟨hp, hg⟩ | ⟨hp, hg⟩ | ⟨hp, hg⟩ | ⟨hp, hg⟩
  all_goals try exact hg h
  all_goals simp [MOB, RDF_type, RDFS_label, GEOn, UNITn] at hp

theorem process_bus_performance_row_no_maxDelay (row : BusPerfHourlyRow)
    (h : safe_float row.MAX_DELAY_MINUTES = none) :
    ∀ s o, (s, MOB "maxDelayMinutes", o) ∉ process_bus_performance_row row := by
  intro s o hmem
  rcases process_bus_performance_row_mem row _ hmem with
    hp | hp | hp | hp | ⟨hp, hg⟩ | ⟨hp, hg⟩ | ⟨hp, hg⟩ | ⟨hp, hg⟩ | ⟨hp, hg⟩
  all_goals try exact hg h
  all_goals simp [MOB, RDF_type, RDFS_label, GEOn, UNITn] at hp

theorem process_bus_performance_row_no_avgSpeed (row : BusPerfHourlyRow)
    (h : safe_float row.AVG_SPEED_KMH = none) :
    ∀ s o, (s, MOB "averageSpeedKmh", o) ∉ process_bus_performance_row row := by
  intro s o hmem
  rcases process_bus_performance_row_mem row _ hmem with
    hp | hp | hp | hp | ⟨hp, hg⟩ | ⟨hp, hg⟩ | ⟨hp, hg⟩ | ⟨hp, hg⟩ | ⟨hp, hg⟩
  all_goals try exact hg h
  all_goals simp [MOB, RDF_type, RDFS_label, GEOn, UNITn] at hp

theorem process_bus_performance_row_no_delayRate (row : BusPerfHourlyRow)
    (h : safe_float row.DELAY_RATE_PCT = none) :
    ∀ s o, (s, MOB "delayRatePercent", o) ∉ process_bus_performance_row row := by
  intro s o hmem
  rcases process_bus_performance_row_mem row _ hmem with
    hp | hp | hp | hp | ⟨hp, hg⟩ | ⟨hp, hg⟩ | ⟨hp, hg⟩ | ⟨hp, hg⟩ | ⟨hp, hg⟩
  all_goals try exact hg h
  all_goals simp [MOB, RDF_type, RDFS_label, GEOn, UNITn] at hp

theorem process_bus_gps_row_mem (row : BusGpsCleanRow) (et : String)
    (het : row.EVENT_TIME = some et) (l : List Triple)
    (hl : process_bus_gps_row row = some l) (t : Triple) (h : t ∈ l) :
    (t.2.1 = RDF_type ∧ (t.2.2 = MOB "Trip" ∨ t.2.2 = MOB "Vehicle"))
    ∨ t.2.1 = MOB "hasVehicle" ∨ t.2.1 = MOB "operatesOnRoute"
    ∨ t.2.1 = MOB "observedInZone" ∨ t.2.1 = MOB "recordedAt" ∨ t.2.1 = RDFS_label
    ∨ ((t.2.1 = MOB "hasLocation" ∨ (t.2.1 = RDF_type ∧ t.2.2 = GEOn "Point")
          ∨ t.2.1 = GEOn "asWKT")
        ∧ safe_float row.LATITUDE ≠ none ∧ safe_float row.LONGITUDE ≠ none)
    ∨ ((t.2.1 = MOB "instantaneousSpeed" ∨ t.2.1 = MOB "speedUnit")
        ∧ safe_float row.SPEED_KMH ≠ none)
    ∨ (t.2.1 = MOB "isDelayed" ∧ safe_bool row.IS_DELAYED ≠ none)
    ∨ ((t.2.1 = MOB "hasDelayEvent" ∨ (t.2.1 = RDF_type ∧ t.2.2 = MOB "DelayEvent")
          ∨ t.2.1 = MOB "delayMinutes" ∨ t.2.1 = MOB "delayUnit")
        ∧ hasPosDelay row)
    ∨ (t.2.1 = MOB "delayCategory" ∧ hasPosDelay row ∧
        strPresent row.DELAY_CATEGORY ≠ none) := by
  simp only [process_bus_gps_row, het] at hl
  have hl2 := Option.some.inj hl
  subst hl2
  rcases htu : to_uri "trip" (some (pyStr row.BUS_ID ++ "_" ++ (chReplace et ' ' 'T' ++ "Z")))
    with _ | tu <;> rw [htu] at h
  · simp at h
  · rcases hvu : to_uri "vehicle" row.BUS_ID with _ | vu <;> rw [hvu] at h
    · simp at h
    · rcases hru : to_uri "route" row.LINE_ID with _ | ru <;> rw [hru] at h
      · simp at h
      · rcases hzu : to_uri "zone" row.ZONE_ID with _ | zu <;> rw [hzu] at h
        · simp at h
        · simp only [List.mem_append, List.mem_cons, List.not_mem_nil, or_false] at h
          rcases h with ((((h | h | h | h | h | h | h) | hL) | hS) | hI) | hD
          · subst h; exact Or.inl ⟨rfl, Or.inl rfl⟩
          · subst h; exact Or.inr (Or.inl rfl)
          · subst h; exact Or.inr (Or.inr (Or.inl rfl))
          · subst h; exact Or.inr (Or.inr (Or.inr (Or.inl rfl)))
          · subst h; exact Or.inr (Or.inr (Or.inr (Or.inr (Or.inl rfl))))
          · subst h; exact Or.inl ⟨rfl, Or.inr rfl⟩
          · subst h; exact Or.inr (Or.inr (Or.inr (Or.inr (Or.inr (Or.inl rfl)))))
          · obtain ⟨lat, lon, hlat, hlon, hm⟩ := mem_opt2Triples hL
            rcases hpu : to_uri "point" (some (pyStr row.BUS_ID ++ "_" ++
              (chReplace et ' ' 'T' ++ "Z"))) with _ | pu <;> rw [hpu] at hm
            · simp at hm
            · simp only [List.mem_cons, List.not_mem_nil, or_false] at hm
              rcases hm with hm | hm | hm
              · subst hm
                exact Or.inr (Or.inr (Or.inr (Or.inr (Or.inr (Or.inr (Or.inl
                  ⟨Or.inl rfl, by simp [hlat], by simp [hlon]⟩))))))
              · subst hm
                exact Or.inr (Or.inr (Or.inr (Or.inr (Or.inr (Or.inr (Or.inl
                  ⟨Or.inr (Or.inl ⟨rfl, rfl⟩), by simp [hlat], by simp [hlon]⟩))))))
              · subst hm
                exact Or.inr (Or.inr (Or.inr (Or.inr (Or.inr (Or.inr (Or.inl
                  ⟨Or.inr (Or.inr rfl), by simp [hlat], by simp [hlon]⟩))))))
          · obtain ⟨a, ha, hm⟩ := mem_optTriples hS
            simp only [List.mem_cons, List.not_mem_nil, or_false] at hm
            rcases hm with hm | hm
            · subst hm
              exact Or.inr (Or.inr (Or.inr (Or.inr (Or.inr (Or.inr (Or.inr (Or.inl
                ⟨Or.inl rfl, by simp [ha]⟩)))))))
            · subst hm
              exact Or.inr (Or.inr (Or.inr (Or.inr (Or.inr (Or.inr (Or.inr (Or.inl
                ⟨Or.inr rfl, by simp [ha]⟩)))))))
          · obtain ⟨a, ha, hm⟩ := mem_optTriples hI
            simp only [List.mem_cons, List.not_mem_nil, or_false] at hm
            subst hm
            exact Or.inr (Or.inr (Or.inr (Or.inr (Or.inr (Or.inr (Or.inr (Or.inr (Or.inl
              ⟨rfl, by simp [ha]⟩))))))))
          · obtain ⟨d, hd, hm⟩ := mem_optTriples hD
            by_cases hpos : 0 < d
            · rw [if_pos hpos] at hm
              rcases hev : to_uri "delay_event" (some (pyStr row.BUS_ID ++ "_" ++
                (chReplace et ' ' 'T' ++ "Z"))) with _ | eu <;> rw [hev] at hm
              · simp at hm
              · simp only [List.mem_append, List.mem_cons, List.not_mem_nil, or_false] at hm
                rcases hm with (hm | hm | hm | hm) | hm
                · subst hm
                  exact Or.inr (Or.inr (Or.inr (Or.inr (Or.inr (Or.inr (Or.inr (Or.inr
                    (Or.inr (Or.inl ⟨Or.inl rfl, d, hd, hpos⟩)))))))))
                · subst hm
                  exact Or.inr (Or.inr (Or.inr (Or.inr (Or.inr (Or.inr (Or.inr (Or.inr
                    (Or.inr (Or.inl ⟨Or.inr (Or.inl ⟨rfl, rfl⟩), d, hd, hpos⟩)))))))))
                · subst hm
                  exact Or.inr (Or.inr (Or.inr (Or.inr (Or.inr (Or.inr (Or.inr (Or.inr
                    (Or.inr (Or.inl ⟨Or.inr (Or.inr (Or.inl rfl)), d, hd, hpos⟩)))))))))
                · subst hm
                  exact Or.inr (Or.inr (Or.inr (Or.inr (Or.inr (Or.inr (Or.inr (Or.inr
                    (Or.inr (Or.inl ⟨Or.inr (Or.inr (Or.inr rfl)), d, hd, hpos⟩)))))))))
                · obtain ⟨c, hc, hmc⟩ := mem_optTriples hm
                  simp only [List.mem_cons, List.not_mem_nil, or_false] at hmc
                  subst hmc
                  exact Or.inr (Or.inr (Or.inr (Or.inr (Or.inr (Or.inr (Or.inr (Or.inr
                    (Or.inr (Or.inr ⟨rfl, ⟨d, hd, hpos⟩, by simp [hc]⟩)))))))))
            · rw [if_neg hpos] at hm
              simp at hm

theorem process_bus_gps_row_no_speed (row : BusGpsCleanRow) (et : String)
    (het : row.EVENT_TIME = some et) (l : List Triple)
    (hl : process_bus_gps_row row = some l)
    (h : safe_float row.SPEED_KMH = none) :
    ∀ s o, (s, MOB "instantaneousSpeed", o) ∉ l := by
  intro s o hmem
  rcases process_bus_gps_row_mem row et het l hl _ hmem with
    ⟨hp, ho⟩ | hp | hp | hp | hp | hp | ⟨hp | ⟨hp, ho⟩ | hp, hg1, hg2⟩ |
    ⟨hp | hp, hg⟩ | ⟨hp, hg⟩ | ⟨hp | ⟨hp, ho⟩ | hp | hp, hg⟩ | ⟨hp, hg, hg2⟩
  all_goals try exact hg h
  all_goals simp [MOB, RDF_type, RDFS_label, GEOn, UNITn] at hp

theorem process_bus_gps_row_no_isDelayed (row : BusGpsCleanRow) (et : String)
    (het : row.EVENT_TIME = some et) (l : List Triple)
    (hl : process_bus_gps_row row = some l)
    (h : safe_bool row.IS_DELAYED = none) :
    ∀ s o, (s, MOB "isDelayed", o) ∉ l := by
  intro s o hmem
  rcases process_bus_gps_row_mem row et het l hl _ hmem with
    ⟨hp, ho⟩ | hp | hp | hp | hp | hp | ⟨hp | ⟨hp, ho⟩ | hp, hg1, hg2⟩ |
    ⟨hp | hp, hg⟩ | ⟨hp, hg⟩ | ⟨hp | ⟨hp, ho⟩ | hp | hp, hg⟩ | ⟨hp, hg, hg2⟩
  all_goals try exact hg h
  all_goals simp [MOB, RDF_type, RDFS_label, GEOn, UNITn] at hp

theorem process_bus_gps_row_no_delayMinutes (row : BusGpsCleanRow) (et : String)
    (het : row.EVENT_TIME = some et) (l : List Triple)
    (hl : process_bus_gps_row row = some l)
    (h : safe_float row.DELAY_MINUTES = none) :
    ∀ s o, (s, MOB "delayMinutes", o) ∉ l := by
  intro s o hmem
  rcases process_bus_gps_row_mem row et het l hl _ hmem with
    ⟨hp, ho⟩ | hp | hp | hp | hp | hp | ⟨hp | ⟨hp, ho⟩ | hp, hg1, hg2⟩ |
    ⟨hp | hp, hg⟩ | ⟨hp, hg⟩ | ⟨hp | ⟨hp, ho⟩ | hp | hp, hg⟩ | ⟨hp, hg, hg2⟩
  all_goals try { obtain ⟨d, hd, _⟩ := hg; rw [h] at hd; exact Option.noConfusion hd }
  all_goals simp [MOB, RDF_type, RDFS_label, GEOn, UNITn] at hp

theorem process_bus_gps_row_no_location (row : BusGpsCleanRow) (et : String)
    (het : row.EVENT_TIME = some et) (l : List Triple)
    (hl : process_bus_gps_row row = some l)
    (h : safe_float row.LATITUDE = none ∨ safe_float row.LONGITUDE = none) :
    ∀ s o, (s, MOB "hasLocation", o) ∉ l ∧ (s, GEOn "asWKT", o) ∉ l := by
  intro s o
  constructor <;> intro hmem <;>
    rcases process_bus_gps_row_mem row et het l hl _ hmem with
      ⟨hp, ho⟩ | hp | hp | hp | hp | hp | ⟨hp | ⟨hp, ho⟩ | hp, hg1, hg2⟩ |
      ⟨hp | hp, hg⟩ | ⟨hp, hg⟩ | ⟨hp | ⟨hp, ho⟩ | hp | hp, hg⟩ | ⟨hp, hg, hg2⟩
  all_goals try { rcases h with h | h; exact hg1 h; exact hg2 h }
  all_goals simp [MOB, RDF_type, RDFS_label, GEOn, UNITn] at hp

theorem process_traffic_row_type_mem (row : TrafficCleanRow) (obs zu : Node)
    (hobs : to_uri "traffic_obs" (some (pyStr row.ZONE_ID ++ "_" ++ pyStr row.TIMESTAMP)) = some obs)
    (hz : to_uri "zone" row.ZONE_ID = some zu) :
    (obs, RDF_type, MOB "TrafficObservation") ∈ process_traffic_row row := by
  simp only [process_traffic_row]
  rw [hobs, hz]
  simp

theorem safe_int_overflow_at_1e400 : safe_int (some "1e400") = Except.error () := by
  have h1 : pyFloat "1e400" = some (((1 : ℕ) : ℚ) * (10 : ℚ) ^ (((400 : ℕ) : ℤ))) := rfl
  simp [safe_int, h1]
  rw [abs_of_pos (by positivity)]
  norm_num

theorem process_planning_row_run_no_raise (row : PlanningCleanRow)
    (h : safe_int row.FREQUENCY_MIN ≠ Except.error ()) :
    process_planning_row_run row = some (process_planning_row row) := by
  simp only [process_planning_row_run, process_planning_row]
  rcases to_uri "schedule" (some (pyStr row.LINE_ID ++ "_" ++ pyStr row.ZONE_ID ++ "_" ++
      pyStr row.DAY_TYPE ++ "_" ++ pyStr row.SCHEDULED_TIME)) with _ | su <;>
    rcases to_uri "route" row.LINE_ID with _ | ru <;>
      rcases to_uri "zone" row.ZONE_ID with _ | zu
  all_goals try rfl
  rcases hsi : safe_int row.FREQUENCY_MIN with e | v
  · cases e
    exact absurd hsi h
  · rfl

theorem process_traffic_row_run_no_raise (row : TrafficCleanRow)
    (h : safe_int row.TRAFFIC_VOLUME ≠ Except.error ()) :
    process_traffic_row_run row = some (process_traffic_row row) := by
  simp only [process_traffic_row_run, process_traffic_row]
  rcases to_uri "traffic_obs" (some (pyStr row.ZONE_ID ++ "_" ++ pyStr row.TIMESTAMP))
      with _ | ou <;>
    rcases to_uri "zone" row.ZONE_ID with _ | zu
  all_goals try rfl
  rcases hsi : safe_int row.TRAFFIC_VOLUME with e | v
  · cases e
    exact absurd hsi h
  · rfl

theorem process_bus_performance_row_run_no_raise (row : BusPerfHourlyRow)
    (h : safe_int row.EVENT_HOUR ≠ Except.error ()) :
    process_bus_performance_row_run row = some (process_bus_performance_row row) := by
  simp only [process_bus_performance_row_run, process_bus_performance_row]
  rcases to_uri "performance" (some (pyStr row.LINE_ID ++ "_" ++ pyStr row.ZONE_ID ++ "_" ++
      pyStr row.EVENT_DATE ++ "_" ++ pyStr row.EVENT_HOUR)) with _ | pu <;>
    rcases to_uri "route" row.LINE_ID with _ | ru <;>
      rcases to_uri "zone" row.ZONE_ID with _ | zu
  all_goals try rfl
  rcases hsi : safe_int row.EVENT_HOUR with e | v
  · cases e
    exact absurd hsi h
  · rfl

/-- Claim C1: in every mapper table, a row for which one of the required
identifier URIs does not resolve (a blank or unresolvable key field)
contributes zero triples to the output graph — no partial triples are emitted
for such a row. -/
theorem claim_C1 :
    (∀ row : TrafficCleanRow, to_uri "zone" row.ZONE_ID = none →
      process_traffic_row row = []) ∧
    (∀ row : ZoneMappingRow, to_uri "zone" row.ZONE_ID = none →
      process_zone_mapping_row row = []) ∧
    (∀ row : PlanningCleanRow,
      (to_uri "route" row.LINE_ID = none ∨ to_uri "zone" row.ZONE_ID = none) →
      process_planning_row row = []) ∧
    (∀ row : BusGpsCleanRow,
      (to_uri "vehicle" row.BUS_ID = none ∨ to_uri "route" row.LINE_ID = none ∨
        to_uri "zone" row.ZONE_ID = none) →
      ∀ l, process_bus_gps_row row = some l → l = []) ∧
    (∀ row : BusPerfHourlyRow,
      (to_uri "route" row.LINE_ID = none ∨ to_uri "zone" row.ZONE_ID = none) →
      process_bus_performance_row row = []) :=
  ⟨process_traffic_row_skip, process_zone_mapping_row_skip, process_planning_row_skip,
   process_bus_gps_row_skip, process_bus_performance_row_skip⟩

theorem claim_C1_witness :
    (to_uri "zone" trafficSkipRow.ZONE_ID = none ∧ process_traffic_row trafficSkipRow = []) ∧
    (to_uri "zone" zoneMappingSkipRow.ZONE_ID = none ∧
      process_zone_mapping_row zoneMappingSkipRow = []) ∧
    (to_uri "route" planningSkipRow.LINE_ID = none ∧
      process_planning_row planningSkipRow = []) ∧
    (to_uri "route" busSkipRow.LINE_ID = none ∧
      (process_bus_gps_row busSkipRow).getD [] = []) ∧
    (to_uri "route" perfSkipRow.LINE_ID = none ∧
      process_bus_performance_row perfSkipRow = []) :=
  ⟨⟨rfl, claim_C1.1 trafficSkipRow rfl⟩,
   ⟨rfl, claim_C1.2.1 zoneMappingSkipRow rfl⟩,
   ⟨rfl, claim_C1.2.2.1 planningSkipRow (Or.inl rfl)⟩,
   ⟨rfl, claim_C1.2.2.2.1 busSkipRow (Or.inr (Or.inl rfl))
      ((process_bus_gps_row busSkipRow).getD []) (by rfl)⟩,
   ⟨rfl, claim_C1.2.2.2.2 perfSkipRow (Or.inl rfl)⟩⟩

/-- Claim C4, corrected.  The claim as stated — a parse failure always ends
with the triple silently omitted and no exception surfacing to the caller —
is refuted by `claim_C4_counterexample`: an integer field whose value parses
past the IEEE double range (e.g. `"1e400"`) makes `int(float(x))` inside
`safe_int` raise an `OverflowError` that the `except (ValueError, TypeError)`
handler does not catch, so the exception escapes to the caller.  Amended
claim, proved here: for every mapper input row and every numeric or boolean
field of that row, if the field's value fails to parse (the defensive helper
yields no value), the corresponding triple is omitted from the graph — no
triple with that field's predicate is contributed by the row — and, as long
as the row's integer fields (`TRAFFIC_VOLUME`, `FREQUENCY_MIN`,
`EVENT_HOUR`) do not overflow to float infinity, no exception surfaces to
the caller: processing the row yields exactly its graph contribution. -/
theorem claim_C4 :
    (∀ row : TrafficCleanRow, safe_float row.AVERAGE_SPEED_KMH = none →
      ∀ s o, (s, MOB "averageSpeed", o) ∉ process_traffic_row row) ∧
    (∀ row : TrafficCleanRow, safe_int_ok row.TRAFFIC_VOLUME = none →
      ∀ s o, (s, MOB "trafficVolume", o) ∉ process_traffic_row row) ∧
    (∀ row : TrafficCleanRow, safe_float row.OCCUPANCY_RATE = none →
      ∀ s o, (s, MOB "occupancyRate", o) ∉ process_traffic_row row) ∧
    (∀ row : TrafficCleanRow, safe_bool row.IS_CONGESTED = none →
      ∀ s o, (s, MOB "isCongested", o) ∉ process_traffic_row row) ∧
    (∀ row : PlanningCleanRow, safe_int_ok row.FREQUENCY_MIN = none →
      ∀ s o, (s, MOB "frequencyMinutes", o) ∉ process_planning_row row) ∧
    (∀ row : PlanningCleanRow, safe_bool row.IS_PEAK_SCHEDULE = none →
      ∀ s o, (s, MOB "isPeakSchedule", o) ∉ process_planning_row row) ∧
    (∀ row : BusPerfHourlyRow, safe_int_ok row.EVENT_HOUR = none →
      ∀ s o, (s, MOB "performanceHour", o) ∉ process_bus_performance_row row) ∧
    (∀ row : BusPerfHourlyRow, safe_float row.AVG_DELAY_MINUTES = none →
      ∀ s o, (s, MOB "averageDelayMinutes", o) ∉ process_bus_performance_row row) ∧
    (∀ row : BusPerfHourlyRow, safe_float row.MAX_DELAY_MINUTES = none →
      ∀ s o, (s, MOB "maxDelayMinutes", o) ∉ process_bus_performance_row row) ∧
    (∀ row : BusPerfHourlyRow, safe_float row.AVG_SPEED_KMH = none →
      ∀ s o, (s, MOB "averageSpeedKmh", o) ∉ process_bus_performance_row row) ∧
    (∀ row : BusPerfHourlyRow, safe_float row.DELAY_RATE_PCT = none →
      ∀ s o, (s, MOB "delayRatePercent", o) ∉ process_bus_performance_row row) ∧
    (∀ (row : BusGpsCleanRow) (et : String) (l : List Triple),
      row.EVENT_TIME = some et → process_bus_gps_row row = some l →
      safe_float row.SPEED_KMH = none →
      ∀ s o, (s, MOB "instantaneousSpeed", o) ∉ l) ∧
    (∀ (row : BusGpsCleanRow) (et : String) (l : List Triple),
      row.EVENT_TIME = some et → process_bus_gps_row row = some l →
      safe_bool row.IS_DELAYED = none →
      ∀ s o, (s, MOB "isDelayed", o) ∉ l) ∧
    (∀ (row : BusGpsCleanRow) (et : String) (l : List Triple),
      row.EVENT_TIME = some et → process_bus_gps_row row = some l →
      safe_float row.DELAY_MINUTES = none →
      ∀ s o, (s, MOB "delayMinutes", o) ∉ l) ∧
    (∀ (row : BusGpsCleanRow) (et : String) (l : List Triple),
      row.EVENT_TIME = some et → process_bus_gps_row row = some l →
      safe_float row.LATITUDE = none →
      ∀ s o, (s, MOB "hasLocation", o) ∉ l ∧ (s, GEOn "asWKT", o) ∉ l) ∧
    (∀ (row : BusGpsCleanRow) (et : String) (l : List Triple),
      row.EVENT_TIME = some et → process_bus_gps_row row = some l →
      safe_float row.LONGITUDE = none →
      ∀ s o, (s, MOB "hasLocation", o) ∉ l ∧ (s, GEOn "asWKT", o) ∉ l) ∧
    (∀ row : TrafficCleanRow, safe_int row.TRAFFIC_VOLUME ≠ Except.error () →
      process_traffic_row_run row = some (process_traffic_row row)) ∧
    (∀ row : PlanningCleanRow, safe_int row.FREQUENCY_MIN ≠ Except.error () →
      process_planning_row_run row = some (process_planning_row row)) ∧
    (∀ row : BusPerfHourlyRow, safe_int row.EVENT_HOUR ≠ Except.error () →
      process_bus_performance_row_run row = some (process_bus_performance_row row)) :=
  ⟨process_traffic_row_no_averageSpeed, process_traffic_row_no_trafficVolume,
   process_traffic_row_no_occupancyRate, process_traffic_row_no_isCongested,
   process_planning_row_no_frequency, process_planning_row_no_isPeak,
   process_bus_performance_row_no_hour, process_bus_performance_row_no_avgDelay,
   process_bus_performance_row_no_maxDelay, process_bus_performance_row_no_avgSpeed,
   process_bus_performance_row_no_delayRate,
   fun row et l het hl h => process_bus_gps_row_no_speed row et het l hl h,
   fun row et l het hl h => process_bus_gps_row_no_isDelayed row et het l hl h,
   fun row et l het hl h => process_bus_gps_row_no_delayMinutes row et het l hl h,
   fun row et l het hl h => process_bus_gps_row_no_location row et het l hl (Or.inl h),
   fun row et l het hl h => process_bus_gps_row_no_location row et het l hl (Or.inr h),
   process_traffic_row_run_no_raise, process_planning_row_run_no_raise,
   process_bus_performance_row_run_no_raise⟩

/-- Counterexample to claim C4 as stated: parse handling is not
exception-free.  The `PLANNING_CLEAN` row `planningOverflowRow` resolves all
its identifier URIs, so it is not skipped, yet its `FREQUENCY_MIN` cell
`"1e400"` parses past the IEEE double range: `float("1e400")` is `inf`, and
`int(inf)` inside `safe_int` raises an `OverflowError` that the
`except (ValueError, TypeError)` handler does not catch.  The exception
escapes to the caller (`Except.error ()`, rendered `none` by the run model)
instead of the `frequencyMinutes` triple being silently omitted. -/
theorem claim_C4_counterexample :
    to_uri "route" planningOverflowRow.LINE_ID =
      some (Node.uri "https://example.org/mobility/data/route/L1") ∧
    to_uri "zone" planningOverflowRow.ZONE_ID =
      some (Node.uri "https://example.org/mobility/data/zone/Z1") ∧
    safe_int planningOverflowRow.FREQUENCY_MIN = Except.error () ∧
    process_planning_row_run planningOverflowRow = none := by
  have hsi : safe_int planningOverflowRow.FREQUENCY_MIN = Except.error () :=
    safe_int_overflow_at_1e400
  refine ⟨rfl, rfl, hsi, ?hrun⟩
  have hsch : to_uri "schedule" (some (pyStr planningOverflowRow.LINE_ID ++ "_" ++
      pyStr planningOverflowRow.ZONE_ID ++ "_" ++ pyStr planningOverflowRow.DAY_TYPE ++ "_" ++
      pyStr planningOverflowRow.SCHEDULED_TIME)) =
      some (Node.uri "https://example.org/mobility/data/schedule/L1_Z1_weekday_07-30") := rfl
  have hru : to_uri "route" planningOverflowRow.LINE_ID =
      some (Node.uri "https://example.org/mobility/data/route/L1") := rfl
  have hzu : to_uri "zone" planningOverflowRow.ZONE_ID =
      some (Node.uri "https://example.org/mobility/data/zone/Z1") := rfl
  simp only [process_planning_row_run, hsch, hru, hzu, hsi]

theorem claim_C4_witness :
    (safe_float trafficAllBadRow.AVERAGE_SPEED_KMH = none ∧
      (Node.uri "s", MOB "averageSpeed", Node.uri "o") ∉ process_traffic_row trafficAllBadRow) ∧
    (safe_int_ok trafficAllBadRow.TRAFFIC_VOLUME = none ∧
      (Node.uri "s", MOB "trafficVolume", Node.uri "o") ∉ process_traffic_row trafficAllBadRow) ∧
    (safe_float trafficAllBadRow.OCCUPANCY_RATE = none ∧
      (Node.uri "s", MOB "occupancyRate", Node.uri "o") ∉ process_traffic_row trafficAllBadRow) ∧
    (safe_bool trafficAllBadRow.IS_CONGESTED = none ∧
      (Node.uri "s", MOB "isCongested", Node.uri "o") ∉ process_traffic_row trafficAllBadRow) ∧
    (safe_int_ok planningBadRow.FREQUENCY_MIN = none ∧
      (Node.uri "s", MOB "frequencyMinutes", Node.uri "o") ∉ process_planning_row planningBadRow) ∧
    (safe_bool planningBadRow.IS_PEAK_SCHEDULE = none ∧
      (Node.uri "s", MOB "isPeakSchedule", Node.uri "o") ∉ process_planning_row planningBadRow) ∧
    (safe_int_ok perfBadRow.EVENT_HOUR = none ∧
      (Node.uri "s", MOB "performanceHour", Node.uri "o") ∉ process_bus_performance_row perfBadRow) ∧
    (safe_float perfBadRow.AVG_DELAY_MINUTES = none ∧
      (Node.uri "s", MOB "averageDelayMinutes", Node.uri "o") ∉ process_bus_performance_row perfBadRow) ∧
    (safe_float perfBadRow.MAX_DELAY_MINUTES = none ∧
      (Node.uri "s", MOB "maxDelayMinutes", Node.uri "o") ∉ process_bus_performance_row perfBadRow) ∧
    (safe_float perfBadRow.AVG_SPEED_KMH = none ∧
      (Node.uri "s", MOB "averageSpeedKmh", Node.uri "o") ∉ process_bus_performance_row perfBadRow) ∧
    (safe_float perfBadRow.DELAY_RATE_PCT = none ∧
      (Node.uri "s", MOB "delayRatePercent", Node.uri "o") ∉ process_bus_performance_row perfBadRow) ∧
    (busBadRow.EVENT_TIME = some "2025-03-10 08:00:00" ∧
      process_bus_gps_row busBadRow = some busBadTriples ∧
      safe_float busBadRow.SPEED_KMH = none ∧
      (Node.uri "s", MOB "instantaneousSpeed", Node.uri "o") ∉ busBadTriples) ∧
    (safe_bool busBadRow.IS_DELAYED = none ∧
      (Node.uri "s", MOB "isDelayed", Node.uri "o") ∉ busBadTriples) ∧
    (safe_float busBadRow.DELAY_MINUTES = none ∧
      (Node.uri "s", MOB "delayMinutes", Node.uri "o") ∉ busBadTriples) ∧
    (safe_float busBadRow.LATITUDE = none ∧
      (Node.uri "s", MOB "hasLocation", Node.uri "o") ∉ busBadTriples ∧
      (Node.uri "s", GEOn "asWKT", Node.uri "o") ∉ busBadTriples) ∧
    (safe_float busBadRow.LONGITUDE = none ∧
      (Node.uri "s", MOB "hasLocation", Node.uri "o") ∉ busBadTriples) ∧
    (safe_int trafficAllBadRow.TRAFFIC_VOLUME ≠ Except.error () ∧
      process_traffic_row_run trafficAllBadRow = some (process_traffic_row trafficAllBadRow)) ∧
    (safe_int planningBadRow.FREQUENCY_MIN ≠ Except.error () ∧
      process_planning_row_run planningBadRow = some (process_planning_row planningBadRow)) ∧
    (safe_int perfBadRow.EVENT_HOUR ≠ Except.error () ∧
      process_bus_performance_row_run perfBadRow =
        some (process_bus_performance_row perfBadRow)) := by
  obtain ⟨h1, h2, h3, h4, h5, h6, h7, h8, h9, h10, h11, h12, h13, h14, h15, h16,
    h17, h18, h19⟩ := claim_C4
  have hn1 : safe_int trafficAllBadRow.TRAFFIC_VOLUME ≠ Except.error () := by
    intro hc
    rw [show safe_int trafficAllBadRow.TRAFFIC_VOLUME = Except.ok none from rfl] at hc
    exact Except.noConfusion hc
  have hn2 : safe_int planningBadRow.FREQUENCY_MIN ≠ Except.error () := by
    intro hc
    rw [show safe_int planningBadRow.FREQUENCY_MIN = Except.ok none from rfl] at hc
    exact Except.noConfusion hc
  have hn3 : safe_int perfBadRow.EVENT_HOUR ≠ Except.error () := by
    intro hc
    rw [show safe_int perfBadRow.EVENT_HOUR = Except.ok none from rfl] at hc
    exact Except.noConfusion hc
  refine ⟨⟨rfl, h1 trafficAllBadRow rfl _ _⟩, ⟨rfl, h2 trafficAllBadRow rfl _ _⟩,
    ⟨rfl, h3 trafficAllBadRow rfl _ _⟩, ⟨rfl, h4 trafficAllBadRow rfl _ _⟩,
    ⟨rfl, h5 planningBadRow rfl _ _⟩, ⟨rfl, h6 planningBadRow rfl _ _⟩,
    ⟨rfl, h7 perfBadRow rfl _ _⟩, ⟨rfl, h8 perfBadRow rfl _ _⟩,
    ⟨rfl, h9 perfBadRow rfl _ _⟩, ⟨rfl, h10 perfBadRow rfl _ _⟩,
    ⟨rfl, h11 perfBadRow rfl _ _⟩,
    ⟨rfl, rfl, rfl, h12 busBadRow "2025-03-10 08:00:00" busBadTriples rfl rfl rfl _ _⟩,
    ⟨rfl, h13 busBadRow "2025-03-10 08:00:00" busBadTriples rfl rfl rfl _ _⟩,
    ⟨rfl, h14 busBadRow "2025-03-10 08:00:00" busBadTriples rfl rfl rfl _ _⟩,
    ⟨rfl, (h15 busBadRow "2025-03-10 08:00:00" busBadTriples rfl rfl rfl _ _).1,
      (h15 busBadRow "2025-03-10 08:00:00" busBadTriples rfl rfl rfl _ _).2⟩,
    ⟨rfl, (h16 busBadRow "2025-03-10 08:00:00" busBadTriples rfl rfl rfl _ _).1⟩,
    ⟨hn1, h17 trafficAllBadRow hn1⟩, ⟨hn2, h18 planningBadRow hn2⟩,
    ⟨hn3, h19 perfBadRow hn3⟩⟩

/-- Claim C5: a `TRAFFIC_CLEAN` row whose `ZONE_ID` and observation URI
resolve but whose `AVERAGE_SPEED_KMH` does not parse as a float contributes
the triple `(observation, rdf:type, mob:TrafficObservation)` to the output
graph while its contribution carries no `mob:averageSpeed` triple. -/
theorem claim_C5 (rows : List TrafficCleanRow) (row : TrafficCleanRow) (hrow : row ∈ rows)
    (obs zu : Node)
    (hobs : to_uri "traffic_obs" (some (pyStr row.ZONE_ID ++ "_" ++ pyStr row.TIMESTAMP)) = some obs)
    (hz : to_uri "zone" row.ZONE_ID = some zu)
    (h : safe_float row.AVERAGE_SPEED_KMH = none) :
    (obs, RDF_type, MOB "TrafficObservation") ∈ process_traffic_clean rows ∧
    ∀ s o, (s, MOB "averageSpeed", o) ∉ process_traffic_row row :=
  ⟨List.mem_flatMap.mpr ⟨row, hrow, process_traffic_row_type_mem row obs zu hobs hz⟩,
   process_traffic_row_no_averageSpeed row h⟩

theorem claim_C5_witness :
    trafficBadSpeedRow ∈ [trafficBadSpeedRow] ∧
    to_uri "traffic_obs" (some (pyStr trafficBadSpeedRow.ZONE_ID ++ "_" ++
      pyStr trafficBadSpeedRow.TIMESTAMP)) = some trafficBadSpeedObs ∧
    to_uri "zone" trafficBadSpeedRow.ZONE_ID = some trafficBadSpeedZone ∧
    safe_float trafficBadSpeedRow.AVERAGE_SPEED_KMH = none ∧
    (trafficBadSpeedObs, RDF_type, MOB "TrafficObservation") ∈
      process_traffic_clean [trafficBadSpeedRow] ∧
    (Node.uri "s", MOB "averageSpeed", Node.uri "o") ∉ process_traffic_row trafficBadSpeedRow := by
  have H := claim_C5 [trafficBadSpeedRow] trafficBadSpeedRow (List.mem_singleton.mpr rfl)
    trafficBadSpeedObs trafficBadSpeedZone (by rfl) (by rfl) (by rfl)
  exact ⟨List.mem_singleton.mpr rfl, by rfl, by rfl, by rfl, H.1,
    H.2 (Node.uri "s") (Node.uri "o")⟩

/-! ### List update lemmas for the injection loops -/

theorem length_updAt {α : Type} (f : α → α) (n : ℕ) (l : List α) :
    (updAt f n l).length = l.length := by
  induction l generalizing n with
  | nil => cases n <;> rfl
  | cons a as ih =>
    cases n with
    | zero => simp [updAt]
    | succ m => simp [updAt, ih]

theorem getElem?_updAt_ne {α : Type} (f : α → α) {m n : ℕ} (h : m ≠ n) (l : List α) :
    (updAt f n l)[m]? = l[m]? := by
  induction l generalizing m n with
  | nil => cases n <;> rfl
  | cons a as ih =>
    cases n with
    | zero =>
      cases m with
      | zero => exact absurd rfl h
      | succ k => simp [updAt]
    | succ n2 =>
      cases m with
      | zero => simp [updAt]
      | succ k => simpa [updAt] using ih (fun hc => h (by rw [hc]))

theorem getElem?_updAt_self {α : Type} (f : α → α) (n : ℕ) (l : List α) :
    (updAt f n l)[n]? = (l[n]?).map f := by
  induction l generalizing n with
  | nil => cases n <;> rfl
  | cons a as ih =>
    cases n with
    | zero => simp [updAt]
    | succ m => simpa [updAt] using ih m

theorem length_foldl_applyUpd {α β : Type} (g : β → α → α) (L : List (ℕ × β)) (l : List α) :
    (L.foldl (applyUpd g) l).length = l.length := by
  induction L generalizing l with
  | nil => rfl
  | cons p T ih => rw [List.foldl_cons, ih, applyUpd, length_updAt]

theorem getElem?_foldl_applyUpd_notMem {α β : Type} (g : β → α → α)
    {L : List (ℕ × β)} {i : ℕ} (h : i ∉ L.map Prod.fst) (l : List α) :
    (L.foldl (applyUpd g) l)[i]? = l[i]? := by
  induction L generalizing l with
  | nil => rfl
  | cons p T ih =>
    simp only [List.map_cons, List.mem_cons, not_or] at h
    rw [List.foldl_cons, ih h.2]
    exact getElem?_updAt_ne _ h.1 l

theorem getElem?_foldl_applyUpd_mem {α β : Type} (g : β → α → α)
    {L : List (ℕ × β)} (hnd : (L.map Prod.fst).Nodup) {i : ℕ} {b : β}
    (hmem : (i, b) ∈ L) (l : List α) :
    (L.foldl (applyUpd g) l)[i]? = (l[i]?).map (g b) := by
  induction L generalizing l with
  | nil => cases hmem
  | cons p T ih =>
    rw [List.map_cons, List.nodup_cons] at hnd
    rw [List.foldl_cons]
    rcases List.mem_cons.mp hmem with heq | hT
    · have hp : p = (i, b) := heq.symm
      subst hp
      have hni : i ∉ T.map Prod.fst := hnd.1
      rw [getElem?_foldl_applyUpd_notMem _ hni]
      exact getElem?_updAt_self _ _ _
    · have hne : i ≠ p.1 := by
        intro hc
        exact hnd.1 (hc ▸ List.mem_map.mpr ⟨(i, b), hT, rfl⟩)
      rw [ih hnd.2 hT, applyUpd, getElem?_updAt_ne _ hne]

theorem inject_length (rows : List TrafficRow) (miss : List (ℕ × Bool))
    (outs : List (ℕ × Bool × ℚ)) :
    (inject_imperfections rows miss outs).length = rows.length := by
  unfold inject_imperfections
  rw [length_foldl_applyUpd, length_foldl_applyUpd]

theorem inject_getElem?_notMem (rows : List TrafficRow) {miss : List (ℕ × Bool)}
    {outs : List (ℕ × Bool × ℚ)} {i : ℕ}
    (hm : i ∉ miss.map Prod.fst) (ho : i ∉ outs.map Prod.fst) :
    (inject_imperfections rows miss outs)[i]? = rows[i]? := by
  unfold inject_imperfections
  rw [getElem?_foldl_applyUpd_notMem _ ho, getElem?_foldl_applyUpd_notMem _ hm]

theorem inject_getElem?_miss (rows : List TrafficRow) {miss : List (ℕ × Bool)}
    {outs : List (ℕ × Bool × ℚ)} {i : ℕ} {c : Bool}
    (hnd : (miss.map Prod.fst).Nodup) (hmem : (i, c) ∈ miss)
    (ho : i ∉ outs.map Prod.fst) :
    (inject_imperfections rows miss outs)[i]? = (rows[i]?).map (missUpd c) := by
  unfold inject_imperfections
  rw [getElem?_foldl_applyUpd_notMem _ ho, getElem?_foldl_applyUpd_mem _ hnd hmem]

theorem inject_getElem?_out (rows : List TrafficRow) {miss : List (ℕ × Bool)}
    {outs : List (ℕ × Bool × ℚ)} {i : ℕ} {p : Bool × ℚ}
    (hnd : (outs.map Prod.fst).Nodup) (hmem : (i, p) ∈ outs)
    (hm : i ∉ miss.map Prod.fst) :
    (inject_imperfections rows miss outs)[i]? = (rows[i]?).map (outUpd p) := by
  unfold inject_imperfections
  rw [getElem?_foldl_applyUpd_mem _ hnd hmem, getElem?_foldl_applyUpd_notMem _ hm]

/-! ### Rounding and clamping bounds -/

theorem le_rhe {q : ℚ} {n : ℤ} (h : (n : ℚ) ≤ q) : n ≤ rhe q := by
  have h1 : n ≤ ⌊q⌋ := Int.le_floor.mpr h
  unfold rhe
  split_ifs <;> omega

theorem rhe_le {q : ℚ} {n : ℤ} (h : q ≤ (n : ℚ)) : rhe q ≤ n := by
  have hf : ⌊q⌋ ≤ n := by
    rw [← Int.floor_intCast (α := ℚ) n]
    exact Int.floor_le_floor h
  rcases lt_or_ge ⌊q⌋ n with hlt | hge
  · unfold rhe
    split_ifs <;> omega
  · have heq : ⌊q⌋ = n := le_antisymm hf hge
    have hfr : Int.fract q = 0 := by
      have h0 : Int.fract q ≤ 0 := by
        have hsub : q - (⌊q⌋ : ℚ) ≤ 0 := by
          rw [heq]
          linarith
        unfold Int.fract
        exact hsub
      exact le_antisymm h0 (Int.fract_nonneg q)
    unfold rhe
    rw [hfr]
    norm_num [heq]

theorem roundTo_bounds {k : ℕ} {q : ℚ} {a b : ℤ}
    (h1 : (a : ℚ) ≤ q * 10 ^ k) (h2 : q * 10 ^ k ≤ (b : ℚ)) :
    (a : ℚ) / 10 ^ k ≤ roundTo k q ∧ roundTo k q ≤ (b : ℚ) / 10 ^ k := by
  have hge := le_rhe h1
  have hle := rhe_le h2
  have hpow : (0 : ℚ) < 10 ^ k := by positivity
  unfold roundTo
  constructor
  · rw [div_le_div_iff_of_pos_right hpow]
    exact_mod_cast hge
  · rw [div_le_div_iff_of_pos_right hpow]
    exact_mod_cast hle

theorem clamp_mem {x lo hi : ℚ} (h : lo ≤ hi) :
    lo ≤ clamp x lo hi ∧ clamp x lo hi ≤ hi := by
  unfold clamp
  exact ⟨le_max_left _ _, max_le h (min_le_left _ _)⟩

theorem round1_clamp_speed (x : ℚ) :
    8 ≤ roundTo 1 (clamp x 8 80) ∧ roundTo 1 (clamp x 8 80) ≤ 80 := by
  have hc := clamp_mem (x := x) (show (8 : ℚ) ≤ 80 by norm_num)
  have hb := roundTo_bounds (k := 1) (q := clamp x 8 80) (a := 80) (b := 800)
    (by push_cast; nlinarith [hc.1]) (by push_cast; nlinarith [hc.2])
  constructor
  · have := hb.1
    norm_num at this
    linarith
  · have := hb.2
    norm_num at this
    linarith

theorem round2_clamp_occ (x : ℚ) :
    1/20 ≤ roundTo 2 (clamp x (5/100) (99/100)) ∧
    roundTo 2 (clamp x (5/100) (99/100)) ≤ 99/100 := by
  have hc := clamp_mem (x := x) (show (5/100 : ℚ) ≤ 99/100 by norm_num)
  have hb := roundTo_bounds (k := 2) (q := clamp x (5/100) (99/100)) (a := 5) (b := 99)
    (by push_cast; nlinarith [hc.1]) (by push_cast; nlinarith [hc.2])
  constructor
  · have := hb.1
    norm_num at this
    linarith
  · have := hb.2
    norm_num at this
    linarith

theorem round2_outlier_gt_one {x : ℚ} (h : 101/100 ≤ x) : 1 < roundTo 2 x := by
  have hge := le_rhe (q := x * 10 ^ 2) (n := 101) (by push_cast; nlinarith)
  unfold roundTo
  rw [lt_div_iff₀ (show (0 : ℚ) < 10 ^ 2 by norm_num)]
  have : (101 : ℚ) ≤ (rhe (x * 10 ^ 2) : ℚ) := by exact_mod_cast hge
  linarith

/-! ### Invariants of normally generated traffic rows -/

theorem mk_traffic_row_inv (z : String) (prof : ZoneProfile) (tsMin : ℕ)
    (pf : ℚ) (d : TDraw) :
    (∃ q, (mk_traffic_row z prof tsMin pf d).average_speed_kmh = TCell.val q ∧
      8 ≤ q ∧ q ≤ 80) ∧
    (∃ q, (mk_traffic_row z prof tsMin pf d).occupancy_rate = TCell.val q ∧
      1/20 ≤ q ∧ q ≤ 99/100) :=
  ⟨⟨_, rfl, (round1_clamp_speed _).1, (round1_clamp_speed _).2⟩,
   ⟨_, rfl, (round2_clamp_occ _).1, (round2_clamp_occ _).2⟩⟩

theorem traffic_base_rows_inv (pf : ℕ → ℚ) (draws : ℕ → TDraw) :
    ∀ r ∈ traffic_base_rows pf draws,
      (∃ q, r.average_speed_kmh = TCell.val q ∧ 8 ≤ q ∧ q ≤ 80) ∧
      (∃ q, r.occupancy_rate = TCell.val q ∧ 1/20 ≤ q ∧ q ≤ 99/100) := by
  intro r hr
  simp only [traffic_base_rows, List.mem_flatMap, List.mem_map, List.mem_range] at hr
  obtain ⟨zi, _, ti, _, rfl⟩ := hr
  exact mk_traffic_row_inv _ _ _ _ _

theorem traffic_base_rows_length (pf : ℕ → ℚ) (draws : ℕ → TDraw) :
    (traffic_base_rows pf draws).length = 552 := by
  simp [traffic_base_rows, Function.comp_def]

theorem fst_nodup_snd_eq {β : Type} {L : List (ℕ × β)} (h : (L.map Prod.fst).Nodup)
    {i : ℕ} {b b2 : β} (h1 : (i, b) ∈ L) (h2 : (i, b2) ∈ L) : b = b2 := by
  induction L with
  | nil => cases h1
  | cons p T ih =>
    rw [List.map_cons, List.nodup_cons] at h
    rcases List.mem_cons.mp h1 with e1 | m1 <;> rcases List.mem_cons.mp h2 with e2 | m2
    · exact (Prod.ext_iff.mp (e1.trans e2.symm)).2
    · exfalso
      apply h.1
      rw [← e1]
      exact List.mem_map.mpr ⟨(i, b2), m2, rfl⟩
    · exfalso
      apply h.1
      rw [← e2]
      exact List.mem_map.mpr ⟨(i, b), m1, rfl⟩
    · exact ih h.2 m1 m2

/-- The invariant satisfied by every normally generated traffic row. -/
def trafficRowNormal (r : TrafficRow) : Prop :=
  (∃ q, r.average_speed_kmh = TCell.val q ∧ 8 ≤ q ∧ q ≤ 80) ∧
  (∃ q, r.occupancy_rate = TCell.val q ∧ 1/20 ≤ q ∧ q ≤ 99/100)

theorem inject_blank_iff {rows : List TrafficRow}
    (hinv : ∀ r ∈ rows, trafficRowNormal r)
    {miss : List (ℕ × Bool)} {outs : List (ℕ × Bool × ℚ)}
    (hmnd : (miss.map Prod.fst).Nodup)
    (hmlt : ∀ p ∈ miss, p.1 < rows.length)
    (hond : (outs.map Prod.fst).Nodup)
    (hdisj : ∀ p ∈ outs, p.1 ∉ miss.map Prod.fst)
    (i : ℕ) :
    blankAt (inject_imperfections rows miss outs) i = true ↔ i ∈ miss.map Prod.fst := by
  constructor
  · intro hb
    by_contra hnm
    by_cases hio : i ∈ outs.map Prod.fst
    · obtain ⟨⟨j, p⟩, hp, rfl⟩ := List.mem_map.mp hio
      have hres := inject_getElem?_out rows hond hp hnm
      rcases hE : rows[(j, p).1]? with _ | r
      · unfold blankAt at hb
        rw [hres, hE] at hb
        simp at hb
      · obtain ⟨⟨q1, hq1, -, -⟩, ⟨q2, hq2, -, -⟩⟩ := hinv r (List.getElem?_mem hE)
        unfold blankAt at hb
        rw [hres, hE] at hb
        cases hc : p.1 <;> simp [outUpd, rowHasBlank, hc, hq1, hq2] at hb
    · have hres := inject_getElem?_notMem rows hnm hio
      rcases hE : rows[i]? with _ | r
      · unfold blankAt at hb
        rw [hres, hE] at hb
        simp at hb
      · obtain ⟨⟨q1, hq1, -, -⟩, ⟨q2, hq2, -, -⟩⟩ := hinv r (List.getElem?_mem hE)
        unfold blankAt at hb
        rw [hres, hE] at hb
        simp [rowHasBlank, hq1, hq2] at hb
  · intro him
    obtain ⟨⟨j, c⟩, hp, rfl⟩ := List.mem_map.mp him
    have hio : (j, c).1 ∉ outs.map Prod.fst := by
      intro hc
      obtain ⟨q, hq, hqi⟩ := List.mem_map.mp hc
      exact hdisj q hq (hqi ▸ him)
    have hres := inject_getElem?_miss rows hmnd hp hio
    have hi2 : (j, c).1 < rows.length := hmlt (j, c) hp
    rcases hE : rows[(j, c).1]? with _ | r
    · rw [List.getElem?_eq_none_iff] at hE
      omega
    · unfold blankAt
      rw [hres, hE]
      cases hc : c <;> simp [missUpd, rowHasBlank, hc]

theorem inject_outlier_iff {rows : List TrafficRow}
    (hinv : ∀ r ∈ rows, trafficRowNormal r)
    {miss : List (ℕ × Bool)} {outs : List (ℕ × Bool × ℚ)}
    (hmnd : (miss.map Prod.fst).Nodup)
    (hond : (outs.map Prod.fst).Nodup)
    (holt : ∀ p ∈ outs, p.1 < rows.length)
    (hdisj : ∀ p ∈ outs, p.1 ∉ miss.map Prod.fst)
    (hspd : ∀ p ∈ outs, p.2.1 = true → p.2.2 = 2 ∨ p.2.2 = 9/2 ∨ p.2.2 = 120)
    (hocc : ∀ p ∈ outs, p.2.1 = false → 101/100 ≤ p.2.2 ∧ p.2.2 ≤ 110/100)
    (i : ℕ) :
    outlierAt (inject_imperfections rows miss outs) i = true ↔ i ∈ outs.map Prod.fst := by
  constructor
  · intro hb
    by_contra hno
    by_cases him : i ∈ miss.map Prod.fst
    · obtain ⟨⟨j, c⟩, hp, rfl⟩ := List.mem_map.mp him
      have hres := inject_getElem?_miss rows hmnd hp hno
      rcases hE : rows[(j, c).1]? with _ | r
      · unfold outlierAt at hb
        rw [hres, hE] at hb
        simp at hb
      · obtain ⟨⟨q1, hq1, hq1a, hq1b⟩, ⟨q2, hq2, hq2a, hq2b⟩⟩ :=
          hinv r (List.getElem?_mem hE)
        unfold outlierAt at hb
        rw [hres, hE] at hb
        cases hc : c
        · rw [hc] at hb
          simp [missUpd, rowHasOutlier, speedIsOutlier, occIsOutlier, hq1] at hb
          rcases hb with (hv | hv) | hv
          · rw [hv] at hq1a; norm_num at hq1a
          · rw [hv] at hq1a; norm_num at hq1a
          · rw [hv] at hq1b; norm_num at hq1b
        · rw [hc] at hb
          simp [missUpd, rowHasOutlier, speedIsOutlier, occIsOutlier, hq2] at hb
          linarith
    · have hres := inject_getElem?_notMem rows him hno
      rcases hE : rows[i]? with _ | r
      · unfold outlierAt at hb
        rw [hres, hE] at hb
        simp at hb
      · obtain ⟨⟨q1, hq1, hq1a, hq1b⟩, ⟨q2, hq2, hq2a, hq2b⟩⟩ :=
          hinv r (List.getElem?_mem hE)
        unfold outlierAt at hb
        rw [hres, hE] at hb
        simp [rowHasOutlier, speedIsOutlier, occIsOutlier, hq1, hq2] at hb
        rcases hb with ((hv | hv) | hv) | hv
        · rw [hv] at hq1a; norm_num at hq1a
        · rw [hv] at hq1a; norm_num at hq1a
        · rw [hv] at hq1b; norm_num at hq1b
        · linarith
  · intro him
    obtain ⟨⟨j, p⟩, hp, rfl⟩ := List.mem_map.mp him
    have hnm : (j, p).1 ∉ miss.map Prod.fst := hdisj (j, p) hp
    have hres := inject_getElem?_out rows hond hp hnm
    have hi2 : (j, p).1 < rows.length := holt (j, p) hp
    rcases hE : rows[(j, p).1]? with _ | r
    · rw [List.getElem?_eq_none_iff] at hE
      omega
    · unfold outlierAt
      rw [hres, hE]
      cases hc : p.1
      · have hgt : 1 < roundTo 2 p.2 := round2_outlier_gt_one (hocc (j, p) hp hc).1
        simp [outUpd, rowHasOutlier, speedIsOutlier, occIsOutlier, hc, hgt]
      · have hv : p.2 = 2 ∨ p.2 = 9/2 ∨ p.2 = 120 := hspd (j, p) hp hc
        rcases hv with hv | hv | hv <;>
          simp [outUpd, rowHasOutlier, speedIsOutlier, occIsOutlier, hc, hv]

/-- Claim C9, corrected: for a `BUS_GPS_CLEAN` row the mapper does not skip,
the `hasDelayEvent` link, the `DelayEvent` node and its `delayMinutes` and
`delayUnit` triples are emitted iff `DELAY_MINUTES` parses to a float
strictly greater than 0; the `delayCategory` triple additionally requires a
non-blank `DELAY_CATEGORY`; a row whose parsed delay equals exactly 0 yields
an `isDelayed` triple (when `IS_DELAYED` is parseable) but no DelayEvent
triples. -/
theorem claim_C9 (row : BusGpsCleanRow) (et : String) (het : row.EVENT_TIME = some et)
    (l : List Triple) (hl : process_bus_gps_row row = some l)
    (tu vu ru zu eu : Node)
    (htu : to_uri "trip" (some (pyStr row.BUS_ID ++ "_" ++ (chReplace et ' ' 'T' ++ "Z"))) = some tu)
    (hvu : to_uri "vehicle" row.BUS_ID = some vu)
    (hru : to_uri "route" row.LINE_ID = some ru)
    (hzu : to_uri "zone" row.ZONE_ID = some zu)
    (heu : to_uri "delay_event" (some (pyStr row.BUS_ID ++ "_" ++ (chReplace et ' ' 'T' ++ "Z"))) = some eu) :
    ((tu, MOB "hasDelayEvent", eu) ∈ l ↔ hasPosDelay row) ∧
    ((eu, RDF_type, MOB "DelayEvent") ∈ l ↔ hasPosDelay row) ∧
    ((∃ s o, (s, MOB "delayMinutes", o) ∈ l) ↔ hasPosDelay row) ∧
    ((∃ s o, (s, MOB "delayUnit", o) ∈ l) ↔ hasPosDelay row) ∧
    ((∃ s o, (s, MOB "delayCategory", o) ∈ l) ↔
      (hasPosDelay row ∧ strPresent row.DELAY_CATEGORY ≠ none)) ∧
    (safe_float row.DELAY_MINUTES = some 0 →
      (∀ b, safe_bool row.IS_DELAYED = some b →
        (tu, MOB "isDelayed", Node.lit (.boolv b) (XSDdt "boolean")) ∈ l) ∧
      ∀ s o, (s, MOB "hasDelayEvent", o) ∉ l) := by
  have hl0 := hl
  simp only [process_bus_gps_row, het] at hl
  rw [htu, hvu, hru, hzu] at hl
  have hl2 := Option.some.inj hl
  subst hl2
  refine ⟨⟨?_, ?_⟩, ⟨?_, ?_⟩, ⟨?_, ?_⟩, ⟨?_, ?_⟩, ⟨?_, ?_⟩, ?_⟩
  · intro hmem
    rcases process_bus_gps_row_mem row et het _ hl0 _ hmem with
      ⟨hp, ho⟩ | hp | hp | hp | hp | hp | ⟨hp | ⟨hp, ho⟩ | hp, hg1, hg2⟩ |
      ⟨hp | hp, hg⟩ | ⟨hp, hg⟩ | ⟨hp | ⟨hp, ho⟩ | hp | hp, hg⟩ | ⟨hp, hg, hg2⟩
    all_goals try exact hg
    all_goals simp [MOB, RDF_type, RDFS_label, GEOn, UNITn] at hp
  · rintro ⟨d, hd, hpos⟩
    simp [List.mem_append, optTriples, hd, hpos, heu]
  · intro hmem
    rcases process_bus_gps_row_mem row et het _ hl0 _ hmem with
      ⟨hp, ho⟩ | hp | hp | hp | hp | hp | ⟨hp | ⟨hp, ho⟩ | hp, hg1, hg2⟩ |
      ⟨hp | hp, hg⟩ | ⟨hp, hg⟩ | ⟨hp | ⟨hp, ho⟩ | hp | hp, hg⟩ | ⟨hp, hg, hg2⟩
    all_goals try exact hg
    all_goals try (rcases ho with ho | ho)
    all_goals try simp [MOB, RDF_type, RDFS_label, GEOn, UNITn] at ho
    all_goals simp [MOB, RDF_type, RDFS_label, GEOn, UNITn] at hp
  · rintro ⟨d, hd, hpos⟩
    simp [List.mem_append, optTriples, hd, hpos, heu]
  · rintro ⟨s, o, hmem⟩
    rcases process_bus_gps_row_mem row et het _ hl0 _ hmem with
      ⟨hp, ho⟩ | hp | hp | hp | hp | hp | ⟨hp | ⟨hp, ho⟩ | hp, hg1, hg2⟩ |
      ⟨hp | hp, hg⟩ | ⟨hp, hg⟩ | ⟨hp | ⟨hp, ho⟩ | hp | hp, hg⟩ | ⟨hp, hg, hg2⟩
    all_goals try exact hg
    all_goals simp [MOB, RDF_type, RDFS_label, GEOn, UNITn] at hp
  · rintro ⟨d, hd, hpos⟩
    exact ⟨eu, Node.lit (.flo d) (XSDdt "float"),
      by simp [List.mem_append, optTriples, hd, hpos, heu]⟩
  · rintro ⟨s, o, hmem⟩
    rcases process_bus_gps_row_mem row et het _ hl0 _ hmem with
      ⟨hp, ho⟩ | hp | hp | hp | hp | hp | ⟨hp | ⟨hp, ho⟩ | hp, hg1, hg2⟩ |
      ⟨hp | hp, hg⟩ | ⟨hp, hg⟩ | ⟨hp | ⟨hp, ho⟩ | hp | hp, hg⟩ | ⟨hp, hg, hg2⟩
    all_goals try exact hg
    all_goals simp [MOB, RDF_type, RDFS_label, GEOn, UNITn] at hp
  · rintro ⟨d, hd, hpos⟩
    exact ⟨eu, UNITn "MIN",
      by simp [List.mem_append, optTriples, hd, hpos, heu]⟩
  · rintro ⟨s, o, hmem⟩
    rcases process_bus_gps_row_mem row et het _ hl0 _ hmem with
      ⟨hp, ho⟩ | hp | hp | hp | hp | hp | ⟨hp | ⟨hp, ho⟩ | hp, hg1, hg2⟩ |
      ⟨hp | hp, hg⟩ | ⟨hp, hg⟩ | ⟨hp | ⟨hp, ho⟩ | hp | hp, hg⟩ | ⟨hp, hg, hg2⟩
    all_goals try exact ⟨hg, hg2⟩
    all_goals simp [MOB, RDF_type, RDFS_label, GEOn, UNITn] at hp
  · rintro ⟨⟨d, hd, hpos⟩, hcat⟩
    obtain ⟨c, hc⟩ := Option.ne_none_iff_exists'.mp hcat
    exact ⟨eu, MOB c,
      by simp [List.mem_append, optTriples, hd, hpos, heu, hc]⟩
  · intro h0
    constructor
    · intro b hb
      simp [List.mem_append, optTriples, hb]
    · intro s o hmem
      rcases process_bus_gps_row_mem row et het _ hl0 _ hmem with
        ⟨hp, ho⟩ | hp | hp | hp | hp | hp | ⟨hp | ⟨hp, ho⟩ | hp, hg1, hg2⟩ |
        ⟨hp | hp, hg⟩ | ⟨hp, hg⟩ | ⟨hp | ⟨hp, ho⟩ | hp | hp, hg⟩ | ⟨hp, hg, hg2⟩
      all_goals try {
        obtain ⟨d, hd, hpos⟩ := hg
        rw [h0] at hd
        obtain rfl := Option.some.inj hd
        exact absurd hpos (lt_irrefl 0) }
      all_goals simp [MOB, RDF_type, RDFS_label, GEOn, UNITn] at hp

theorem claim_C9_counterexample :
    safe_float busNoCatRow.DELAY_MINUTES = some 5 ∧ (0 : ℚ) < 5 ∧
    busNoCatTriples.any (fun t => t.2.1 == MOB "hasDelayEvent") = true ∧
    busNoCatTriples.all (fun t => !(t.2.1 == MOB "delayCategory")) = true := by
  refine ⟨by rfl, by norm_num, by rfl, by rfl⟩

theorem claim_C9_witness :
    busDelayRow.EVENT_TIME = some "2025-03-10 08:00:00" ∧
    process_bus_gps_row busDelayRow = some busDelayTriples ∧
    to_uri "trip" (some (pyStr busDelayRow.BUS_ID ++ "_" ++
      (chReplace "2025-03-10 08:00:00" ' ' 'T' ++ "Z"))) = some busDelayTrip ∧
    to_uri "vehicle" busDelayRow.BUS_ID = some busDelayVehicle ∧
    to_uri "route" busDelayRow.LINE_ID = some busDelayRoute ∧
    to_uri "zone" busDelayRow.ZONE_ID = some busDelayZone ∧
    to_uri "delay_event" (some (pyStr busDelayRow.BUS_ID ++ "_" ++
      (chReplace "2025-03-10 08:00:00" ' ' 'T' ++ "Z"))) = some busDelayEvent ∧
    ((busDelayTrip, MOB "hasDelayEvent", busDelayEvent) ∈ busDelayTriples ↔
      hasPosDelay busDelayRow) :=
  ⟨rfl, rfl, rfl, rfl, rfl, rfl, rfl,
   (claim_C9 busDelayRow "2025-03-10 08:00:00" rfl busDelayTriples rfl
     busDelayTrip busDelayVehicle busDelayRoute busDelayZone busDelayEvent
     rfl rfl rfl rfl rfl).1⟩

/-- Claim C2: after traffic generation over all (zone, timestamp) pairs,
exactly `⌊total · 0.03⌋` rows have one field blanked and exactly
`⌊total · 0.01⌋` rows have one field replaced by an outlier value; the two
index sets are disjoint, outlier indices being drawn only from rows not
chosen as missing.  The hypotheses are the documented contract of
`random.sample`, of the field coins and of the outlier value draws. -/
theorem claim_C2 (pf : ℕ → ℚ) (draws : ℕ → TDraw)
    (miss : List (ℕ × Bool)) (outs : List (ℕ × Bool × ℚ))
    (hmnd : (miss.map Prod.fst).Nodup)
    (hmlt : ∀ p ∈ miss, p.1 < 552)
    (hmlen : miss.length = missCount 552)
    (hond : (outs.map Prod.fst).Nodup)
    (holt : ∀ p ∈ outs, p.1 < 552)
    (holen : outs.length = outCount 552)
    (hdisj : ∀ p ∈ outs, p.1 ∉ miss.map Prod.fst)
    (hspd : ∀ p ∈ outs, p.2.1 = true → p.2.2 = 2 ∨ p.2.2 = 9/2 ∨ p.2.2 = 120)
    (hocc : ∀ p ∈ outs, p.2.1 = false → 101/100 ≤ p.2.2 ∧ p.2.2 ≤ 110/100) :
    (missCount 552 = 16 ∧ (16 : ℤ) = ⌊(552 : ℚ) * (3/100)⌋ ∧
      outCount 552 = 5 ∧ (5 : ℤ) = ⌊(552 : ℚ) * (1/100)⌋) ∧
    ((Finset.range 552).filter (fun i =>
      blankAt (inject_imperfections (traffic_base_rows pf draws) miss outs) i = true)).card
      = missCount 552 ∧
    ((Finset.range 552).filter (fun i =>
      outlierAt (inject_imperfections (traffic_base_rows pf draws) miss outs) i = true)).card
      = outCount 552 ∧
    ∀ i, ¬(blankAt (inject_imperfections (traffic_base_rows pf draws) miss outs) i = true ∧
      outlierAt (inject_imperfections (traffic_base_rows pf draws) miss outs) i = true) := by
  have hinv : ∀ r ∈ traffic_base_rows pf draws, trafficRowNormal r :=
    traffic_base_rows_inv pf draws
  have hlen := traffic_base_rows_length pf draws
  have hmlt2 : ∀ p ∈ miss, p.1 < (traffic_base_rows pf draws).length := by
    rw [hlen]; exact hmlt
  have holt2 : ∀ p ∈ outs, p.1 < (traffic_base_rows pf draws).length := by
    rw [hlen]; exact holt
  have hbiff := inject_blank_iff hinv hmnd hmlt2 hond hdisj
  have hoiff := inject_outlier_iff hinv hmnd hond holt2 hdisj hspd hocc
  refine ⟨⟨by norm_num [missCount]; try decide, by norm_num, by norm_num [outCount]; try decide, by norm_num⟩, ?_, ?_, ?_⟩
  · have hset : (Finset.range 552).filter (fun i =>
        blankAt (inject_imperfections (traffic_base_rows pf draws) miss outs) i = true)
        = (miss.map Prod.fst).toFinset := by
      ext i
      simp only [Finset.mem_filter, Finset.mem_range, List.mem_toFinset]
      constructor
      · rintro ⟨-, hb⟩
        exact (hbiff i).mp hb
      · intro him
        refine ⟨?_, (hbiff i).mpr him⟩
        obtain ⟨p, hp, hpi⟩ := List.mem_map.mp him
        rw [← hpi]
        exact hmlt p hp
    rw [hset, List.toFinset_card_of_nodup hmnd, List.length_map, hmlen]
  · have hset : (Finset.range 552).filter (fun i =>
        outlierAt (inject_imperfections (traffic_base_rows pf draws) miss outs) i = true)
        = (outs.map Prod.fst).toFinset := by
      ext i
      simp only [Finset.mem_filter, Finset.mem_range, List.mem_toFinset]
      constructor
      · rintro ⟨-, hb⟩
        exact (hoiff i).mp hb
      · intro him
        refine ⟨?_, (hoiff i).mpr him⟩
        obtain ⟨p, hp, hpi⟩ := List.mem_map.mp him
        rw [← hpi]
        exact holt p hp
    rw [hset, List.toFinset_card_of_nodup hond, List.length_map, holen]
  · rintro i ⟨hb, ho⟩
    obtain ⟨p, hp, hpi⟩ := List.mem_map.mp ((hoiff i).mp ho)
    exact hdisj p hp (hpi ▸ (hbiff i).mp hb)

theorem claim_C2_witness :
    ((wMiss.map Prod.fst).Nodup ∧ (∀ p ∈ wMiss, p.1 < 552) ∧
      wMiss.length = missCount 552 ∧
      (wOuts.map Prod.fst).Nodup ∧ (∀ p ∈ wOuts, p.1 < 552) ∧
      wOuts.length = outCount 552 ∧
      (∀ p ∈ wOuts, p.1 ∉ wMiss.map Prod.fst) ∧
      (∀ p ∈ wOuts, p.2.1 = true → p.2.2 = 2 ∨ p.2.2 = 9/2 ∨ p.2.2 = 120) ∧
      (∀ p ∈ wOuts, p.2.1 = false → 101/100 ≤ p.2.2 ∧ p.2.2 ≤ 110/100)) ∧
    ((Finset.range 552).filter (fun i => blankAt wResult i = true)).card = missCount 552 ∧
    ((Finset.range 552).filter (fun i => outlierAt wResult i = true)).card = outCount 552 ∧
    ¬(blankAt wResult 0 = true ∧ outlierAt wResult 0 = true) := by
  have H := claim_C2 wPf wDraws wMiss wOuts (by decide) (by decide)
    (by norm_num [wMiss, missCount]; try decide) (by norm_num [wOuts])
    (by norm_num [wOuts]) (by norm_num [wOuts, outCount]; try decide)
    (by norm_num [wOuts, wMiss]) (by norm_num [wOuts]) (by norm_num [wOuts])
  exact ⟨⟨by decide, by decide, by norm_num [wMiss, missCount]; try decide,
    by norm_num [wOuts], by norm_num [wOuts],
    by norm_num [wOuts, outCount]; try decide, by norm_num [wOuts, wMiss],
    by norm_num [wOuts], by norm_num [wOuts]⟩,
    H.2.1, H.2.2.1, H.2.2.2 0⟩

/-- Claim C3: in the injected traffic table, every row's occupancy cell is
exactly one of: blank (only at a sampled missing index), a normal value in
`[0.05, 0.99]`, or a value strictly greater than 1 (only at a sampled
outlier index); no cell is both missing and an outlier. -/
theorem claim_C3 (pf : ℕ → ℚ) (draws : ℕ → TDraw)
    (miss : List (ℕ × Bool)) (outs : List (ℕ × Bool × ℚ))
    (hmnd : (miss.map Prod.fst).Nodup)
    (hmlt : ∀ p ∈ miss, p.1 < 552)
    (hond : (outs.map Prod.fst).Nodup)
    (holt : ∀ p ∈ outs, p.1 < 552)
    (hdisj : ∀ p ∈ outs, p.1 ∉ miss.map Prod.fst)
    (hocc : ∀ p ∈ outs, p.2.1 = false → 101/100 ≤ p.2.2 ∧ p.2.2 ≤ 110/100) :
    ∀ i, i < 552 →
      ∃ r, (inject_imperfections (traffic_base_rows pf draws) miss outs)[i]? = some r ∧
        ((r.occupancy_rate = TCell.blank ∧ i ∈ miss.map Prod.fst ∧
           i ∉ outs.map Prod.fst) ∨
         (∃ q, r.occupancy_rate = TCell.val q ∧ 5/100 ≤ q ∧ q ≤ 99/100) ∨
         (∃ q, r.occupancy_rate = TCell.val q ∧ 1 < q ∧ i ∈ outs.map Prod.fst ∧
           i ∉ miss.map Prod.fst)) := by
  intro i hi
  have hlen := traffic_base_rows_length pf draws
  have hi2 : i < (traffic_base_rows pf draws).length := by rw [hlen]; exact hi
  rcases hE : (traffic_base_rows pf draws)[i]? with _ | r0
  · rw [List.getElem?_eq_none_iff] at hE
    omega
  obtain ⟨⟨q1, hq1, hq1a, hq1b⟩, ⟨q2, hq2, hq2a, hq2b⟩⟩ :=
    traffic_base_rows_inv pf draws r0 (List.getElem?_mem hE)
  by_cases him : i ∈ miss.map Prod.fst
  · obtain ⟨⟨j, c⟩, hp, rfl⟩ := List.mem_map.mp him
    have hio : (j, c).1 ∉ outs.map Prod.fst := by
      intro hc2
      obtain ⟨q, hq, hqi⟩ := List.mem_map.mp hc2
      exact hdisj q hq (hqi ▸ him)
    have hres := inject_getElem?_miss (traffic_base_rows pf draws) hmnd hp hio
    rw [hE] at hres
    cases hc : c
    · refine ⟨missUpd false r0, by rw [hc] at hres; simpa using hres,
        Or.inl ⟨by simp [missUpd], him, hio⟩⟩
    · refine ⟨missUpd true r0, by rw [hc] at hres; simpa using hres,
        Or.inr (Or.inl ⟨q2, by simp [missUpd, hq2], by linarith, hq2b⟩)⟩
  · by_cases hio : i ∈ outs.map Prod.fst
    · obtain ⟨⟨j, p⟩, hp, rfl⟩ := List.mem_map.mp hio
      have hres := inject_getElem?_out (traffic_base_rows pf draws) hond hp him
      rw [hE] at hres
      cases hc : p.1
      · have h101 : (101 : ℚ)/100 ≤ p.2 := (hocc (j, p) hp hc).1
        have hgt := round2_outlier_gt_one h101
        refine ⟨outUpd p r0, by simpa using hres,
          Or.inr (Or.inr ⟨roundTo 2 p.2, by simp [outUpd, hc], hgt, hio, him⟩)⟩
      · refine ⟨outUpd p r0, by simpa using hres,
          Or.inr (Or.inl ⟨q2, by simp [outUpd, hc, hq2], by linarith, hq2b⟩)⟩
    · have hres := inject_getElem?_notMem (traffic_base_rows pf draws) him hio
      rw [hE] at hres
      exact ⟨r0, hres, Or.inr (Or.inl ⟨q2, hq2, by linarith, hq2b⟩)⟩

theorem claim_C3_witness :
    ((wMiss.map Prod.fst).Nodup ∧ (∀ p ∈ wMiss, p.1 < 552) ∧
      (wOuts.map Prod.fst).Nodup ∧ (∀ p ∈ wOuts, p.1 < 552) ∧
      (∀ p ∈ wOuts, p.1 ∉ wMiss.map Prod.fst) ∧
      (∀ p ∈ wOuts, p.2.1 = false → 101/100 ≤ p.2.2 ∧ p.2.2 ≤ 110/100)) ∧
    (0 : ℕ) < 552 ∧
    (∃ r, wResult[0]? = some r ∧
      ((r.occupancy_rate = TCell.blank ∧ (0 : ℕ) ∈ wMiss.map Prod.fst ∧
         (0 : ℕ) ∉ wOuts.map Prod.fst) ∨
       (∃ q, r.occupancy_rate = TCell.val q ∧ 5/100 ≤ q ∧ q ≤ 99/100) ∨
       (∃ q, r.occupancy_rate = TCell.val q ∧ 1 < q ∧ (0 : ℕ) ∈ wOuts.map Prod.fst ∧
         (0 : ℕ) ∉ wMiss.map Prod.fst))) := by
  refine ⟨⟨by decide, by decide, by norm_num [wOuts], by norm_num [wOuts],
    by norm_num [wOuts, wMiss], by norm_num [wOuts]⟩, by norm_num, ?_⟩
  exact claim_C3 wPf wDraws wMiss wOuts (by decide) (by decide)
    (by norm_num [wOuts]) (by norm_num [wOuts]) (by norm_num [wOuts, wMiss])
    (by norm_num [wOuts]) 0 (by norm_num)

/-- Claim C10: the injection loops modify only the `average_speed_kmh` or
`occupancy_rate` field of a selected row — exactly one field per selected
row; for every row the `zone_id`, `timestamp` and `traffic_volume` fields
keep the values produced by normal generation, and rows at unselected
indices are entirely unchanged. -/
theorem claim_C10 (pf : ℕ → ℚ) (draws : ℕ → TDraw)
    (miss : List (ℕ × Bool)) (outs : List (ℕ × Bool × ℚ))
    (hmnd : (miss.map Prod.fst).Nodup)
    (hond : (outs.map Prod.fst).Nodup)
    (hdisj : ∀ p ∈ outs, p.1 ∉ miss.map Prod.fst) :
    (inject_imperfections (traffic_base_rows pf draws) miss outs).length = 552 ∧
    ∀ i, i < 552 →
      ∃ r0 r1, (traffic_base_rows pf draws)[i]? = some r0 ∧
        (inject_imperfections (traffic_base_rows pf draws) miss outs)[i]? = some r1 ∧
        r1.zone_id = r0.zone_id ∧ r1.timestamp = r0.timestamp ∧
        r1.traffic_volume = r0.traffic_volume ∧
        (i ∉ miss.map Prod.fst → i ∉ outs.map Prod.fst → r1 = r0) ∧
        (∀ c, (i, c) ∈ miss →
          if c then r1.average_speed_kmh = TCell.blank ∧
            r1.occupancy_rate = r0.occupancy_rate ∧
            r0.average_speed_kmh ≠ TCell.blank
          else r1.occupancy_rate = TCell.blank ∧
            r1.average_speed_kmh = r0.average_speed_kmh ∧
            r0.occupancy_rate ≠ TCell.blank) ∧
        (∀ c q, (i, (c, q)) ∈ outs →
          if c then r1.average_speed_kmh = TCell.val q ∧
            r1.occupancy_rate = r0.occupancy_rate
          else r1.occupancy_rate = TCell.val (roundTo 2 q) ∧
            r1.average_speed_kmh = r0.average_speed_kmh) := by
  have hlen := traffic_base_rows_length pf draws
  refine ⟨by rw [inject_length, hlen], ?_⟩
  intro i hi
  have hi2 : i < (traffic_base_rows pf draws).length := by rw [hlen]; exact hi
  rcases hE : (traffic_base_rows pf draws)[i]? with _ | r0
  · rw [List.getElem?_eq_none_iff] at hE
    omega
  obtain ⟨⟨q1, hq1, -, -⟩, ⟨q2, hq2, -, -⟩⟩ :=
    traffic_base_rows_inv pf draws r0 (List.getElem?_mem hE)
  by_cases him : i ∈ miss.map Prod.fst
  · obtain ⟨⟨j, c0⟩, hp, rfl⟩ := List.mem_map.mp him
    have hio : (j, c0).1 ∉ outs.map Prod.fst := by
      intro hc2
      obtain ⟨q, hq, hqi⟩ := List.mem_map.mp hc2
      exact hdisj q hq (hqi ▸ him)
    have hres := inject_getElem?_miss (traffic_base_rows pf draws) hmnd hp hio
    rw [hE] at hres
    refine ⟨r0, missUpd c0 r0, rfl, by simpa using hres, ?_, ?_, ?_, ?_, ?_, ?_⟩
    · cases c0 <;> rfl
    · cases c0 <;> rfl
    · cases c0 <;> rfl
    · intro hnm _
      exact absurd him hnm
    · intro c hmem2
      have hceq : c = c0 := fst_nodup_snd_eq hmnd hmem2 hp
      subst hceq
      cases c <;> simp [missUpd, hq1, hq2]
    · intro c q hmem2
      exact absurd (List.mem_map.mpr ⟨((j, c0).1, (c, q)), hmem2, rfl⟩) hio
  · by_cases hio : i ∈ outs.map Prod.fst
    · obtain ⟨⟨j, p0⟩, hp, rfl⟩ := List.mem_map.mp hio
      have hres := inject_getElem?_out (traffic_base_rows pf draws) hond hp him
      rw [hE] at hres
      refine ⟨r0, outUpd p0 r0, rfl, by simpa using hres, ?_, ?_, ?_, ?_, ?_, ?_⟩
      · rcases p0 with ⟨c, q⟩
        cases c <;> rfl
      · rcases p0 with ⟨c, q⟩
        cases c <;> rfl
      · rcases p0 with ⟨c, q⟩
        cases c <;> rfl
      · intro _ hno
        exact absurd hio hno
      · intro c hmem2
        exact absurd (List.mem_map.mpr ⟨((j, p0).1, c), hmem2, rfl⟩) him
      · intro c q hmem2
        have hpeq : (c, q) = p0 := fst_nodup_snd_eq hond hmem2 hp
        subst hpeq
        cases c <;> simp [outUpd, hq1, hq2]
    · have hres := inject_getElem?_notMem (traffic_base_rows pf draws) him hio
      rw [hE] at hres
      refine ⟨r0, r0, rfl, hres, rfl, rfl, rfl, fun _ _ => rfl, ?_, ?_⟩
      · intro c hmem2
        exact absurd (List.mem_map.mpr ⟨(i, c), hmem2, rfl⟩) him
      · intro c q hmem2
        exact absurd (List.mem_map.mpr ⟨(i, (c, q)), hmem2, rfl⟩) hio

theorem claim_C10_witness :
    ((wMiss.map Prod.fst).Nodup ∧ (wOuts.map Prod.fst).Nodup ∧
      (∀ p ∈ wOuts, p.1 ∉ wMiss.map Prod.fst)) ∧
    wResult.length = 552 ∧
    (3 : ℕ) < 552 ∧
    (∃ r0 r1, (traffic_base_rows wPf wDraws)[3]? = some r0 ∧
      wResult[3]? = some r1 ∧
      r1.zone_id = r0.zone_id ∧ r1.timestamp = r0.timestamp ∧
      r1.traffic_volume = r0.traffic_volume ∧
      ((3 : ℕ) ∉ wMiss.map Prod.fst → (3 : ℕ) ∉ wOuts.map Prod.fst → r1 = r0) ∧
      (∀ c, ((3 : ℕ), c) ∈ wMiss →
        if c then r1.average_speed_kmh = TCell.blank ∧
          r1.occupancy_rate = r0.occupancy_rate ∧
          r0.average_speed_kmh ≠ TCell.blank
        else r1.occupancy_rate = TCell.blank ∧
          r1.average_speed_kmh = r0.average_speed_kmh ∧
          r0.occupancy_rate ≠ TCell.blank) ∧
      (∀ c q, ((3 : ℕ), (c, q)) ∈ wOuts →
        if c then r1.average_speed_kmh = TCell.val q ∧
          r1.occupancy_rate = r0.occupancy_rate
        else r1.occupancy_rate = TCell.val (roundTo 2 q) ∧
          r1.average_speed_kmh = r0.average_speed_kmh)) := by
  have H := claim_C10 wPf wDraws wMiss wOuts (by decide) (by norm_num [wOuts])
    (by norm_num [wOuts, wMiss])
  exact ⟨⟨by decide, by norm_num [wOuts], by norm_num [wOuts, wMiss]⟩, H.1,
    by norm_num, H.2 3 (by norm_num)⟩

/-! ### Bus trajectory generator lemmas -/

theorem mk_bus_point_area (bus_id line_id : String) (zones_path : List String)
    (base_delay : ℤ) (t0min k : ℕ) (d : BusPtDraw) :
    (mk_bus_point bus_id line_id zones_path base_delay t0min k d).area_code =
      areaCodeOf (zones_path.getD
        ((k / max 1 (120 / zones_path.length)) % zones_path.length) "") := rfl

theorem mk_bus_point_line (bus_id line_id : String) (zones_path : List String)
    (base_delay : ℤ) (t0min k : ℕ) (d : BusPtDraw) :
    (mk_bus_point bus_id line_id zones_path base_delay t0min k d).line_id = line_id := rfl

theorem getD_LINES_mem : ∀ i : ℕ, i < 8 → LINES.getD i "" ∈ LINES := by decide

theorem lineZones_length : ∀ l ∈ LINES, (lineZonesOf l).length = 3 := by decide

theorem zones_path_spec : ∀ l ∈ LINES, ∀ m : ℕ, m < (lineZonesOf l).length →
    areaCodeToZone (areaCodeOf ((lineZonesOf l).getD m "")) =
      some ((lineZonesOf l).getD m "") ∧
    (lineZonesOf l).getD m "" ∈ lineZonesOf l := by decide

/-- Claim C6: for every generated bus GPS feature, the zone decoded from its
`area_code` property through the fixed synonym table is a member of the
ordered zone list of the line assigned to that feature's bus. -/
theorem claim_C6 (dB : ℕ → BusDraw) (dP : ℕ → ℕ → BusPtDraw) :
    ∀ f ∈ generate_bus_features dB dP,
      ∃ z, areaCodeToZone f.area_code = some z ∧ z ∈ lineZonesOf f.line_id := by
  intro f hf
  simp only [generate_bus_features, List.mem_flatMap, List.mem_map, List.mem_range] at hf
  obtain ⟨b, hb, k, hk, rfl⟩ := hf
  have hidx : (dB b).lineIdx % 8 < 8 := Nat.mod_lt _ (by norm_num)
  have hL : LINES.getD ((dB b).lineIdx % 8) "" ∈ LINES := getD_LINES_mem _ hidx
  have hlen3 := lineZones_length _ hL
  rw [mk_bus_point_area, mk_bus_point_line]
  have hseg : (k / max 1 (120 / (lineZonesOf (LINES.getD ((dB b).lineIdx % 8) "")).length)) %
      (lineZonesOf (LINES.getD ((dB b).lineIdx % 8) "")).length <
      (lineZonesOf (LINES.getD ((dB b).lineIdx % 8) "")).length := by
    rw [hlen3]
    omega
  exact ⟨_, (zones_path_spec _ hL _ hseg).1, (zones_path_spec _ hL _ hseg).2⟩

theorem claim_C6_witness :
    wBusFeat ∈ generate_bus_features wBusDraw wBusPtDraw ∧
    ∃ z, areaCodeToZone wBusFeat.area_code = some z ∧
      z ∈ lineZonesOf wBusFeat.line_id := by
  have hmem : wBusFeat ∈ generate_bus_features wBusDraw wBusPtDraw := by
    simp only [generate_bus_features, List.mem_flatMap, List.mem_map, List.mem_range]
    exact ⟨0, by norm_num, 0, by norm_num, rfl⟩
  exact ⟨hmem, claim_C6 wBusDraw wBusPtDraw wBusFeat hmem⟩

/-! ### Planning generator lemmas -/

theorem planning_loop_length (draw : ℕ → PlanDraw) (records : List String) :
    (planning_loop draw records).length = max PLANNING_LINES records.length := by
  unfold planning_loop
  split
  · rw [planning_loop_length draw (records ++ [mk_planning_line (draw records.length)])]
    simp only [PLANNING_LINES, List.length_append, List.length_cons, List.length_nil] at *
    omega
  · simp only [PLANNING_LINES] at *
    omega
termination_by PLANNING_LINES - records.length
decreasing_by simp [List.length_append]; omega

/-- Claim C7: the planning record loop terminates for every sequence of
draws (the embedding is a total function, proved terminating by the
decreasing measure `PLANNING_LINES - records.length`) and the number of
records produced equals the configured target 180, independently of the
randomness. -/
theorem claim_C7 (draw : ℕ → PlanDraw) :
    (generate_planning_txt draw).length = 180 := by
  unfold generate_planning_txt
  rw [planning_loop_length]
  simp [PLANNING_LINES]

/-- Claim C8: traffic generation is deterministic.  `generate_traffic_run`
begins with `random.seed(SEED)`, which replaces the PRNG state by a function
of the seed alone, so two runs from arbitrary prior RNG states produce the
same row sequence and byte-identical CSV output. -/
theorem claim_C8 (pf : ℕ → ℚ) (a b : ℕ) :
    generate_traffic_run pf a = generate_traffic_run pf b ∧
    traffic_csv (generate_traffic_run pf a) = traffic_csv (generate_traffic_run pf b) :=
  ⟨rfl, rfl⟩

end DataSpaces
